import Mathlib

/-!
# Verification of the oop-analyzer rule engine

A shallow embedding of the `oop_analyzer` Python package: the data model
(`RuleViolation`, `RuleResult`, `AnalysisReport`), the configuration
round-trip (`config.py`), the safety/parsing gate (`safety.py`), the
orchestrator (`analyzer.py`) and the per-rule AST visitors needed by the
checked properties (`boolean_flag.py`, `type_code.py`, `polymorphism.py`,
`functions_to_objects.py`, `encapsulation.py`).

Python machine details embedded as follows: Python `int` is `Int` (arbitrary
precision in CPython, so no modular wrap), dict values of heterogeneous type
become the small `MetaVal` sum, dicts preserving insertion order become
association lists, and exception-raising calls become `Except`-returning
functions.  The CPython `ast.parse` primitive (standard library, not part of
this repository) is an abstract parameter returning `Except` — either a tree
or the string of the raised `SyntaxError`.
-/

set_option maxHeartbeats 1000000

namespace OopAnalyzer

/-- Scalar values the rules store in their `dict[str, Any]` mappings:
strings, ints, bools, `None`, and flat lists of strings (the only list
shape a violation's metadata ever holds). -/
inductive MetaLeaf where
  | str (s : String)
  | int (n : Int)
  | bool (b : Bool)
  | null
  | strList (xs : List String)
deriving DecidableEq, Repr

/-- A flat record dict with scalar values (insertion-ordered). -/
abbrev MetaDict := List (String × MetaLeaf)

/-- The value shapes a `RuleResult`'s open metadata mapping holds: a scalar,
a list of flat record dicts (the rules' `patterns` side channels), or a dict
from names to lists of record dicts (`function_groups`). -/
inductive MetaVal where
  | leaf (v : MetaLeaf)
  | dicts (xs : List MetaDict)
  | groups (xs : List (String × List MetaDict))
deriving DecidableEq, Repr

/-- Association-list lookup, the embedding of `d.get(key)` on an
insertion-ordered Python dict with distinct keys. -/
def lookupMeta (key : String) : MetaDict → Option MetaLeaf
  | [] => none
  | (k, v) :: rest => if k = key then some v else lookupMeta key rest

/-- `rules/base.py` `RuleViolation`: one finding.  Field for field the source
dataclass; `metadata` is the open rule-specific mapping (whose values, in
every rule, are scalars or string lists). -/
structure RuleViolation where
  rule_name : String
  message : String
  file_path : String
  line : Nat
  column : Nat := 0
  severity : String := "warning"
  suggestion : Option String := none
  code_snippet : Option String := none
  metadata : MetaDict := []
deriving DecidableEq, Repr

/-- `rules/base.py` `RuleResult`: the output of one rule run. -/
structure RuleResult where
  rule_name : String
  violations : List RuleViolation := []
  summary : MetaDict := []
  metadata : List (String × MetaVal) := []
deriving DecidableEq, Repr

/-- `RuleResult.violation_count` property: `len(self.violations)`. -/
def RuleResult.violation_count (r : RuleResult) : Nat :=
  r.violations.length

/-- `RuleResult.has_violations` property: `len(self.violations) > 0`. -/
def RuleResult.has_violations (r : RuleResult) : Bool :=
  decide (r.violations.length > 0)

/-- One entry of an `AnalysisReport`'s error list.  The orchestrator builds
these as plain dict literals with the keys below (`file` or `path`, an
optional `rule` tag, an `error` string, optional `details`). -/
structure ErrorEntry where
  file : Option String := none
  path : Option String := none
  rule : Option String := none
  error : String
  details : Option (List String) := none
deriving DecidableEq, Repr

/-- JSON values, the persisted form a configuration is saved to
(`json.dump(self.to_dict(), f)`) and reloaded from (`json.load`), and the
shape of the config snapshot stored in a report. -/
inductive Json where
  | null
  | bool (b : Bool)
  | num (n : Int)
  | str (s : String)
  | arr (xs : List Json)
  | obj (fields : List (String × Json))

/-- `formatters/base.py` `AnalysisReport`.  The `timestamp` field
(`datetime.now()`) is wall-clock state and irrelevant to every checked
property, so it is not modelled; `config` is the plain dict snapshot. -/
structure AnalysisReport where
  files_analyzed : List String
  results : List (String × RuleResult)
  config : Json := .obj []
  errors : List ErrorEntry := []

/-- `AnalysisReport.total_violations` property:
`sum(r.violation_count for r in self.results.values())`. -/
def AnalysisReport.total_violations (rep : AnalysisReport) : Nat :=
  (rep.results.map (fun p => p.2.violation_count)).sum

/-! ## Configuration (`config.py`) -/

/-- `d.get(key)` on a JSON object (insertion-ordered, distinct keys). -/
def jsonGet (key : String) : List (String × Json) → Option Json
  | [] => none
  | (k, v) :: rest => if k = key then some v else jsonGet key rest

/-- `config.py` `RuleConfig` dataclass.  Rule options are open JSON-shaped
values (they are persisted through JSON). -/
structure RuleConfig where
  enabled : Bool := true
  severity : String := "warning"
  options : List (String × Json) := []

/-- `AnalyzerConfig.AVAILABLE_RULES` keys in dict order. -/
def AVAILABLE_RULES : List String :=
  ["encapsulation", "coupling", "null_object", "polymorphism",
   "functions_to_objects", "type_code", "reference_exposure",
   "dictionary_usage", "boolean_flag"]

/-- `config.py` `AnalyzerConfig` dataclass fields. -/
structure AnalyzerConfig where
  rules : List (String × RuleConfig)
  output_format : String := "json"
  include_patterns : List String := ["*.py"]
  exclude_patterns : List String := ["**/test_*.py", "**/*_test.py", "**/tests/**"]
  max_file_size : Int := 10 * 1024 * 1024

/-- `rule_name in self.rules` membership test on the rules dict. -/
def hasRule (rs : List (String × RuleConfig)) (n : String) : Bool :=
  rs.any (fun p => p.1 == n)

/-- The loop body of `AnalyzerConfig.__post_init__`: add a default
`RuleConfig` for every available rule name not already present (dict
assignment on a fresh key appends in insertion order). -/
def addDefaultRules (rs : List (String × RuleConfig)) : List String → List (String × RuleConfig)
  | [] => rs
  | n :: ns =>
      addDefaultRules (if hasRule rs n then rs else rs ++ [(n, {})]) ns

/-- Constructing an `AnalyzerConfig` runs `__post_init__` over
`AVAILABLE_RULES`; this is the only way the dataclass is ever built. -/
def mkAnalyzerConfig (rules : List (String × RuleConfig)) (output_format : String)
    (include_patterns exclude_patterns : List String) (max_file_size : Int) :
    AnalyzerConfig :=
  { rules := addDefaultRules rules AVAILABLE_RULES
    output_format := output_format
    include_patterns := include_patterns
    exclude_patterns := exclude_patterns
    max_file_size := max_file_size }

/-- `AnalyzerConfig.get_enabled_rules`. -/
def AnalyzerConfig.get_enabled_rules (c : AnalyzerConfig) : List String :=
  (c.rules.filter (fun p => p.2.enabled)).map (fun p => p.1)

/-- The per-rule dict written by `AnalyzerConfig.to_dict`. -/
def ruleConfigToDict (rc : RuleConfig) : Json :=
  .obj [("enabled", .bool rc.enabled), ("severity", .str rc.severity),
        ("options", .obj rc.options)]

/-- `AnalyzerConfig.to_dict`, the persisted JSON form (`save` serializes this
dict with `json.dump`; the text encode/decode pair is the identity on these
values, so the persisted form is modelled as the JSON value itself). -/
def AnalyzerConfig.toDict (c : AnalyzerConfig) : Json :=
  .obj [("rules", .obj (c.rules.map (fun p => (p.1, ruleConfigToDict p.2)))),
        ("output_format", .str c.output_format),
        ("include_patterns", .arr (c.include_patterns.map .str)),
        ("exclude_patterns", .arr (c.exclude_patterns.map .str)),
        ("max_file_size", .num c.max_file_size)]

/-- The `from_file` loop body for one `rules` entry: a bare boolean becomes
an enabled flag, a dict is read field by field with the source's defaults.
A JSON object produced by `save` always stores a boolean `enabled`, a string
`severity` and an object `options`, which is what the typed fields receive
(CPython stores the raw loaded values unchecked). -/
def ruleConfigFromData (data : Json) : Option RuleConfig :=
  match data with
  | .bool b => some { enabled := b }
  | .obj fields =>
      some { enabled := match jsonGet "enabled" fields with
                        | some (.bool b) => b
                        | _ => true
             severity := match jsonGet "severity" fields with
                         | some (.str s) => s
                         | _ => "warning"
             options := match jsonGet "options" fields with
                        | some (.obj o) => o
                        | _ => [] }
  | _ => none  -- neither bool nor dict: the entry is skipped

/-- `AnalyzerConfig.from_file` after `json.load`: read each rules entry,
then construct the dataclass (running `__post_init__`). -/
def AnalyzerConfig.fromFile (data : Json) : AnalyzerConfig :=
  let fields := match data with | .obj fs => fs | _ => []
  let ruleEntries := match jsonGet "rules" fields with | some (.obj rs) => rs | _ => []
  let rules := ruleEntries.filterMap (fun p =>
    (ruleConfigFromData p.2).map (fun rc => (p.1, rc)))
  mkAnalyzerConfig rules
    (match jsonGet "output_format" fields with | some (.str s) => s | _ => "json")
    (match jsonGet "include_patterns" fields with
     | some (.arr xs) => xs.filterMap (fun j => match j with | .str s => some s | _ => none)
     | _ => ["*.py"])
    (match jsonGet "exclude_patterns" fields with
     | some (.arr xs) => xs.filterMap (fun j => match j with | .str s => some s | _ => none)
     | _ => ["**/test_*.py", "**/*_test.py", "**/tests/**"])
    (match jsonGet "max_file_size" fields with | some (.num n) => n | _ => 10 * 1024 * 1024)

/-! ## Safety gate (`safety.py`) -/

/-- `safety.py` `SafetyReport` dataclass. -/
structure SafetyReport where
  is_safe : Bool
  file_path : String
  issues : List String
deriving DecidableEq, Repr

/-- `SafetyValidator.MAX_FILE_SIZE_BYTES = 10 * 1024 * 1024`. -/
def MAX_FILE_SIZE_BYTES : Int := 10 * 1024 * 1024

/-- `SafetyValidator.__init__`: `self.max_file_size = max_file_size or
self.MAX_FILE_SIZE_BYTES`.  Python `or` keeps the left operand only when it
is truthy; the int `0` (and `None`) are falsy, every nonzero int is truthy. -/
def effectiveMaxFileSize (max_file_size : Option Int) : Int :=
  match max_file_size with
  | none => MAX_FILE_SIZE_BYTES
  | some v => if v = 0 then MAX_FILE_SIZE_BYTES else v

/-- The filesystem facts `validate_file_path` asks about a path: existence,
regular-file kind, suffix, and `stat().st_size` (which may raise `OSError`). -/
structure FileInfo where
  fileExists : Bool
  isFile : Bool
  suffix : String
  statSize : Except String Int
deriving Repr

/-- `SafetyValidator.validate_file_path`, check for check in source order. -/
def validateFilePath (max_file_size : Int) (path : String) (info : FileInfo) :
    SafetyReport :=
  if !info.fileExists then
    { is_safe := false, file_path := path, issues := ["File does not exist: " ++ path] }
  else if !info.isFile then
    { is_safe := false, file_path := path, issues := ["Path is not a file: " ++ path] }
  else if info.suffix ≠ ".py" then
    { is_safe := false, file_path := path, issues := ["File is not a Python file: " ++ path] }
  else
    match info.statSize with
    | .error e =>
        { is_safe := false, file_path := path, issues := ["Cannot access file: " ++ e] }
    | .ok file_size =>
        if file_size > max_file_size then
          { is_safe := false, file_path := path,
            issues := ["File too large: " ++ toString file_size ++ " bytes (max: " ++
                       toString max_file_size ++ " bytes)"] }
        else
          { is_safe := true, file_path := path, issues := [] }

/-! ## The Python AST

A tagged-variant tree mirroring the `ast` node shapes the embedded rules
consult.  Node fields never read by any embedded rule (decorator lists,
return annotations, comparison operators, match-case patterns, etc.) are
omitted; `lineno` / `col_offset` are carried on the node kinds whose
locations the rules report.  `AsyncFunctionDef` is embedded as
`functionDef` with `isAsync := true` because every embedded visitor's
`visit_AsyncFunctionDef` repeats `visit_FunctionDef` verbatim. -/

/-- `ast.Constant` payloads the rules distinguish. -/
inductive PyConst where
  | noneC
  | boolC (b : Bool)
  | intC (n : Int)
  | strC (s : String)
deriving DecidableEq, Repr

/-- `ast.alias` in an import statement: name and optional `as` name. -/
structure ImportAlias where
  name : String
  asname : Option String
deriving DecidableEq, Repr

mutual
/-- Python expressions. -/
inductive PyExpr where
  | nameE (id : String)
  | constantE (value : PyConst)
  | attributeE (value : PyExpr) (attr : String) (line col : Nat)
  | callE (func : PyExpr) (args : List PyExpr)
  | compareE (left : PyExpr) (comparators : List PyExpr)
  | boolOpE (values : List PyExpr)
  | unaryOpE (operand : PyExpr)
  | ifExpE (test body orelse : PyExpr)
  | dictE (keys values : List PyExpr)
  | subscriptE (value slice : PyExpr)

/-- `ast.arg`: parameter name and optional type annotation (`ann`). -/
inductive PyArg where
  | mk (arg : String) (ann : Option PyExpr)

/-- `ast.arguments`. -/
inductive PyArguments where
  | mk (posonlyargs args : List PyArg) (vararg : Option PyArg)
      (kwonlyargs : List PyArg) (kw_defaults : List (Option PyExpr))
      (kwarg : Option PyArg) (defaults : List PyExpr)

/-- Python statements.  A `matchStmt` keeps only its case bodies: no
embedded rule looks at case patterns or guards, only at `len(node.cases)`
and the statements inside. -/
inductive PyStmt where
  | functionDef (name : String) (args : PyArguments) (body : List PyStmt)
      (isAsync : Bool) (line col : Nat)
  | classDef (name : String) (bases : List PyExpr) (body : List PyStmt) (line col : Nat)
  | ifStmt (test : PyExpr) (body orelse : List PyStmt) (line col : Nat)
  | whileStmt (test : PyExpr) (body orelse : List PyStmt)
  | matchStmt (subject : PyExpr) (cases : List (List PyStmt)) (line col : Nat)
  | returnStmt (value : Option PyExpr)
  | exprStmt (value : PyExpr)
  | assignStmt (targets : List PyExpr) (value : PyExpr)
  | importStmt (names : List ImportAlias)
  | importFromStmt (moduleName : Option String) (names : List ImportAlias)
  | passStmt
end

/-- Projection: parameter name of an `ast.arg`. -/
def PyArg.arg : PyArg → String
  | .mk a _ => a

/-- Projection: annotation of an `ast.arg`. -/
def PyArg.ann : PyArg → Option PyExpr
  | .mk _ t => t

/-- Projection: `arguments.posonlyargs`. -/
def PyArguments.posonlyargs : PyArguments → List PyArg
  | .mk p _ _ _ _ _ _ => p

/-- Projection: `arguments.args`. -/
def PyArguments.args : PyArguments → List PyArg
  | .mk _ a _ _ _ _ _ => a

/-- Projection: `arguments.vararg`. -/
def PyArguments.vararg : PyArguments → Option PyArg
  | .mk _ _ v _ _ _ _ => v

/-- Projection: `arguments.kwonlyargs`. -/
def PyArguments.kwonlyargs : PyArguments → List PyArg
  | .mk _ _ _ k _ _ _ => k

/-- Projection: `arguments.kw_defaults`. -/
def PyArguments.kw_defaults : PyArguments → List (Option PyExpr)
  | .mk _ _ _ _ d _ _ => d

/-- Projection: `arguments.kwarg`. -/
def PyArguments.kwarg : PyArguments → Option PyArg
  | .mk _ _ _ _ _ k _ => k

/-- Projection: `arguments.defaults`. -/
def PyArguments.defaults : PyArguments → List PyExpr
  | .mk _ _ _ _ _ _ d => d

/-- `str.lower()` (ASCII case mapping). -/
def pyLower (s : String) : String :=
  ⟨s.data.map Char.toLower⟩

/-- `str.startswith(pre)`. -/
def pyStartsWith (s pre : String) : Bool :=
  pre.data.isPrefixOf s.data

/-- `str.endswith(suf)`. -/
def pyEndsWith (s suf : String) : Bool :=
  suf.data.isSuffixOf s.data

/-- `s[0]` of a nonempty string (the default character for the empty
string, which never occurs: Python identifiers are nonempty). -/
def pyFirstChar (s : String) : Char :=
  s.data.headD 'A'

/-- `sep.join(xs)`. -/
def pyJoin (sep : String) : List String → String
  | [] => ""
  | [x] => x
  | x :: rest => x ++ sep ++ pyJoin sep rest

/-- `str.strip()` (whitespace on both ends). -/
def pyStrip (s : String) : String :=
  ⟨((s.data.dropWhile Char.isWhitespace).reverse.dropWhile Char.isWhitespace).reverse⟩

/-- Splitting a character list at a separator character. -/
def splitCharsOn (sep : Char) : List Char → List Char → List String
  | [], acc => [⟨acc.reverse⟩]
  | c :: rest, acc =>
      if c == sep then ⟨acc.reverse⟩ :: splitCharsOn sep rest []
      else splitCharsOn sep rest (c :: acc)

/-- `str.split(sep)` for a one-character separator (as used with `"_"` and
`"."`). -/
def pySplitOn (sep : Char) (s : String) : List String :=
  splitCharsOn sep s.data []

/-- `str.splitlines()` for `\n`-separated text (the embedding does not model
`\r` line endings): split on newlines, discarding the empty piece a trailing
newline would produce. -/
def pySplitlines (s : String) : List String :=
  if s = "" then []
  else
    let parts := pySplitOn '\n' s
    if parts.getLast? = some "" then parts.dropLast else parts

/-- The `_get_source_line` helper shared by the rule visitors: the 1-based
line, stripped; `""` when out of range. -/
def getSourceLine (source : String) (line_number : Nat) : String :=
  let lines := pySplitlines source
  if 1 ≤ line_number ∧ line_number ≤ lines.length then
    pyStrip ((lines.get? (line_number - 1)).getD "")
  else ""

/-! ## Boolean flag rule (`rules/boolean_flag.py`) -/

/-- `BooleanFlagRule.__init__` option knobs, with the source defaults the
`options.get(key, default)` calls supply. -/
structure BfOptions where
  check_constructors : Bool := true
  check_methods : Bool := true
  check_functions : Bool := true
  min_flag_usages : Nat := 1

/-- `_is_bool_type`: the annotation is the bare name `bool`. -/
def isBoolType : PyExpr → Bool
  | .nameE id => id == "bool"
  | _ => false

/-- The `boolean_prefixes` tuple of `_is_boolean_name`. -/
def booleanPrefixes : List String :=
  ["is_", "has_", "can_", "should_", "will_", "did_", "enable_", "disable_",
   "use_", "allow_", "include_", "exclude_", "force_", "skip_", "ignore_",
   "check_"]

/-- The `boolean_names` tuple of `_is_boolean_name`. -/
def booleanNames : List String :=
  ["enabled", "disabled", "active", "inactive", "visible", "hidden",
   "readonly", "required", "optional", "recursive", "verbose", "quiet",
   "debug", "dry_run", "force"]

/-- `_is_boolean_name`. -/
def isBooleanName (name : String) : Bool :=
  let nl := pyLower name
  booleanPrefixes.any (fun p => pyStartsWith nl p) || booleanNames.contains nl

/-- Whether one parameter is selected by the `_find_boolean_params` loop
body, given the default `_get_default_for_arg` resolves for it: not
`self`/`cls`, then annotated `bool`, or defaulted to a boolean literal, or
boolean-suggestively named. -/
def isBoolParam (a : PyArg) (dflt : Option PyExpr) : Bool :=
  if a.arg == "self" || a.arg == "cls" then false
  else if (a.ann.map isBoolType).getD false then true
  else match dflt with
       | some (.constantE (.boolC _)) => true
       | _ => isBooleanName a.arg

/-- `_get_default_for_arg` for the `i`-th positional arg: defaults are
right-aligned against `args` (`default_index = i - (len(args) -
len(defaults))`). -/
def positionalDefault (nArgs nDefaults : Nat) (defaults : List PyExpr) (i : Nat) :
    Option PyExpr :=
  let idx : Int := (i : Int) - ((nArgs : Int) - (nDefaults : Int))
  if idx ≥ 0 then defaults.get? idx.toNat else none

/-- Names selected from a parameter list by indexed iteration. -/
def findBoolInArgs (nArgs nDefaults : Nat) (defaults : List PyExpr) :
    Nat → List PyArg → List String
  | _, [] => []
  | i, a :: rest =>
      (if isBoolParam a (positionalDefault nArgs nDefaults defaults i)
       then [a.arg] else []) ++ findBoolInArgs nArgs nDefaults defaults (i + 1) rest

/-- Kw-only names: `kw_defaults[i]` when present (`None` meaning no
default). -/
def findBoolInKwonly : Nat → List PyArg → List (Option PyExpr) → List String
  | _, [], _ => []
  | i, a :: rest, kwDefaults =>
      (if isBoolParam a ((kwDefaults.get? i).getD none) then [a.arg] else []) ++
      findBoolInKwonly (i + 1) rest kwDefaults

/-- `_find_boolean_params`: iterate `args.args + args.kwonlyargs`, resolving
each positional default by right-alignment and each kw-only default by
position. -/
def findBooleanParams (args : PyArguments) : List String :=
  findBoolInArgs args.args.length args.defaults.length args.defaults 0 args.args ++
  findBoolInKwonly 0 args.kwonlyargs args.kw_defaults

mutual
/-- `ConditionalUsageCounter._uses_variable`. -/
def usesVariable (var : String) : PyExpr → Bool
  | .nameE id => id == var
  | .unaryOpE operand => usesVariable var operand
  | .boolOpE values => usesVariableAny var values
  | .compareE left comparators =>
      usesVariable var left || usesVariableAny var comparators
  | _ => false
termination_by structural e => e

/-- `any(self._uses_variable(v) for v in ...)`. -/
def usesVariableAny (var : String) : List PyExpr → Bool
  | [] => false
  | e :: rest => usesVariable var e || usesVariableAny var rest
termination_by structural l => l
end

mutual
/-- `ConditionalUsageCounter` over one statement: `generic_visit`
everywhere, adding one at each `If` / `While` whose test uses the
variable. -/
def cuStmt (var : String) : PyStmt → Nat
  | .functionDef _ args body _ _ _ => cuArgs var args + cuStmts var body
  | .classDef _ bases body _ _ => cuExprs var bases + cuStmts var body
  | .ifStmt t b o _ _ =>
      (if usesVariable var t then 1 else 0) + cuExpr var t + cuStmts var b + cuStmts var o
  | .whileStmt t b o =>
      (if usesVariable var t then 1 else 0) + cuExpr var t + cuStmts var b + cuStmts var o
  | .matchStmt s cs _ _ => cuExpr var s + cuStmtss var cs
  | .returnStmt v => cuOptExpr var v
  | .exprStmt e => cuExpr var e
  | .assignStmt ts v => cuExprs var ts + cuExpr var v
  | .importStmt _ => 0
  | .importFromStmt _ _ => 0
  | .passStmt => 0
termination_by structural s => s

/-- Counter over a statement list. -/
def cuStmts (var : String) : List PyStmt → Nat
  | [] => 0
  | s :: rest => cuStmt var s + cuStmts var rest
termination_by structural l => l

/-- Counter over match-case bodies. -/
def cuStmtss (var : String) : List (List PyStmt) → Nat
  | [] => 0
  | b :: rest => cuStmts var b + cuStmtss var rest
termination_by structural l => l

/-- `ConditionalUsageCounter` over one expression: one per `IfExp` whose
test uses the variable, one per `BoolOp` one of whose operands uses it. -/
def cuExpr (var : String) : PyExpr → Nat
  | .nameE _ => 0
  | .constantE _ => 0
  | .attributeE v _ _ _ => cuExpr var v
  | .callE f args => cuExpr var f + cuExprs var args
  | .compareE l cs => cuExpr var l + cuExprs var cs
  | .boolOpE vs =>
      (if vs.any (fun v => usesVariable var v) then 1 else 0) + cuExprs var vs
  | .unaryOpE operand => cuExpr var operand
  | .ifExpE t b o =>
      (if usesVariable var t then 1 else 0) + cuExpr var t + cuExpr var b + cuExpr var o
  | .dictE ks vs => cuExprs var ks + cuExprs var vs
  | .subscriptE v s => cuExpr var v + cuExpr var s
termination_by structural e => e

/-- Counter over an expression list. -/
def cuExprs (var : String) : List PyExpr → Nat
  | [] => 0
  | e :: rest => cuExpr var e + cuExprs var rest
termination_by structural l => l

/-- Counter over an optional expression. -/
def cuOptExpr (var : String) : Option PyExpr → Nat
  | none => 0
  | some e => cuExpr var e

/-- Counter over the function's `arguments` child (annotations and default
expressions are part of the visited subtree). -/
def cuArgs (var : String) : PyArguments → Nat
  | .mk pos args vararg kwonly kwDefaults kwarg defaults =>
      cuArgList var pos + cuArgList var args + cuOptArg var vararg +
      cuArgList var kwonly + cuOptExprs var kwDefaults + cuOptArg var kwarg +
      cuExprs var defaults

/-- Counter over a parameter list (annotations only). -/
def cuArgList (var : String) : List PyArg → Nat
  | [] => 0
  | .mk _ t :: rest => cuOptExpr var t + cuArgList var rest
termination_by structural l => l

/-- Counter over an optional parameter. -/
def cuOptArg (var : String) : Option PyArg → Nat
  | none => 0
  | some (.mk _ t) => cuOptExpr var t

/-- Counter over a list of optional expressions. -/
def cuOptExprs (var : String) : List (Option PyExpr) → Nat
  | [] => 0
  | e :: rest => cuOptExpr var e + cuOptExprs var rest
termination_by structural l => l
end

/-- `_count_conditional_usages`: run the counter over the function node. -/
def countConditionalUsages (node : PyStmt) (param : String) : Nat :=
  cuStmt param node

/-- Output state of a `BooleanFlagVisitor` run. -/
structure BfAcc where
  violations : List RuleViolation := []
  flag_patterns : List MetaDict := []
  constructor_flag_count : Nat := 0
  method_flag_count : Nat := 0
  function_flag_count : Nat := 0

/-- Concatenate two visitor outputs (append-only state). -/
def BfAcc.append (x y : BfAcc) : BfAcc :=
  { violations := x.violations ++ y.violations
    flag_patterns := x.flag_patterns ++ y.flag_patterns
    constructor_flag_count := x.constructor_flag_count + y.constructor_flag_count
    method_flag_count := x.method_flag_count + y.method_flag_count
    function_flag_count := x.function_flag_count + y.function_flag_count }

/-- `f"{x}"` on an optional string: Python prints `None`. -/
def optClassStr : Option String → String
  | some c => c
  | none => "None"

/-- The `class` metadata value: the enclosing class name or `None`. -/
def classMetaLeaf : Option String → MetaLeaf
  | some c => .str c
  | none => .null

/-- `BooleanFlagVisitor._add_violation` for one flagged parameter. -/
def bfViolation (src filePath : String) (currentClass : Option String)
    (fname : String) (line col : Nat) (param : String) (usages : Nat)
    (is_constructor is_method : Bool) : BfAcc :=
  let context :=
    if is_constructor then
      "Constructor of \x27" ++ optClassStr currentClass ++ "\x27"
    else if is_method then
      "Method \x27" ++ fname ++ "\x27 in class \x27" ++ optClassStr currentClass ++ "\x27"
    else
      "Function \x27" ++ fname ++ "\x27"
  let suggestion :=
    if is_constructor then
      "Consider splitting into separate classes or using a factory method " ++
      "instead of a boolean flag in the constructor."
    else if is_method then
      "Consider splitting \x27" ++ fname ++ "\x27 into two methods with descriptive names " ++
      "instead of using a boolean flag to control behavior."
    else
      "Consider splitting \x27" ++ fname ++ "\x27 into two functions with descriptive names " ++
      "instead of using a boolean flag to control behavior."
  { violations :=
      [{ rule_name := "boolean_flag"
         message := context ++ " has boolean flag parameter \x27" ++ param ++
                    "\x27 used in " ++ toString usages ++
                    " conditional(s). This causes behavior branching."
         file_path := filePath
         line := line
         column := col
         severity := "warning"
         suggestion := some suggestion
         code_snippet := some (getSourceLine src line)
         metadata :=
           [("parameter", .str param), ("function", .str fname),
            ("class", classMetaLeaf currentClass),
            ("is_constructor", .bool is_constructor),
            ("conditional_usages", .int usages)] }]
    flag_patterns :=
      [[("type", .str "boolean_flag"), ("line", .int line),
        ("parameter", .str param), ("function", .str fname),
        ("class", classMetaLeaf currentClass)]]
    constructor_flag_count := if is_constructor then 1 else 0
    method_flag_count := if is_constructor then 0 else if is_method then 1 else 0
    function_flag_count := if is_constructor || is_method then 0 else 1 }

/-- The per-parameter loop at the end of `_check_function`. -/
def bfCheckParams (opts : BfOptions) (src filePath : String)
    (currentClass : Option String) (node : PyStmt) (fname : String)
    (line col : Nat) (is_constructor is_method : Bool) :
    List String → BfAcc
  | [] => {}
  | p :: rest =>
      let usages := countConditionalUsages node p
      (if usages ≥ opts.min_flag_usages then
        bfViolation src filePath currentClass fname line col p usages
          is_constructor is_method
       else {}).append
        (bfCheckParams opts src filePath currentClass node fname line col
          is_constructor is_method rest)

/-- `BooleanFlagVisitor._check_function`. -/
def bfCheckFunction (opts : BfOptions) (src filePath : String)
    (currentClass : Option String) (fname : String) (args : PyArguments)
    (body : List PyStmt) (isAsync : Bool) (line col : Nat) : BfAcc :=
  let is_constructor := fname == "__init__"
  let is_method := currentClass.isSome
  let is_function := !currentClass.isSome
  if is_constructor && !opts.check_constructors then {}
  else if is_method && !is_constructor && !opts.check_methods then {}
  else if is_function && !opts.check_functions then {}
  else
    bfCheckParams opts src filePath currentClass
      (.functionDef fname args body isAsync line col) fname line col
      is_constructor is_method (findBooleanParams args)

mutual
/-- `BooleanFlagVisitor` traversal of one statement: class nodes swap the
tracked class name, function nodes run `_check_function` and then
`generic_visit`; no expression carries a visitor method, so only nested
statement lists matter. -/
def bfStmt (opts : BfOptions) (src filePath : String)
    (currentClass : Option String) : PyStmt → BfAcc
  | .functionDef n args body isAsync line col =>
      (bfCheckFunction opts src filePath currentClass n args body isAsync
        line col).append (bfStmts opts src filePath currentClass body)
  | .classDef n _ body _ _ => bfStmts opts src filePath (some n) body
  | .ifStmt _ b o _ _ =>
      (bfStmts opts src filePath currentClass b).append
        (bfStmts opts src filePath currentClass o)
  | .whileStmt _ b o =>
      (bfStmts opts src filePath currentClass b).append
        (bfStmts opts src filePath currentClass o)
  | .matchStmt _ cs _ _ => bfStmtss opts src filePath currentClass cs
  | _ => {}
termination_by structural s => s

/-- Traversal of a statement list. -/
def bfStmts (opts : BfOptions) (src filePath : String)
    (currentClass : Option String) : List PyStmt → BfAcc
  | [] => {}
  | s :: rest =>
      (bfStmt opts src filePath currentClass s).append
        (bfStmts opts src filePath currentClass rest)
termination_by structural l => l

/-- Traversal of match-case bodies. -/
def bfStmtss (opts : BfOptions) (src filePath : String)
    (currentClass : Option String) : List (List PyStmt) → BfAcc
  | [] => {}
  | b :: rest =>
      (bfStmts opts src filePath currentClass b).append
        (bfStmtss opts src filePath currentClass rest)
termination_by structural l => l
end

/-- `BooleanFlagRule.analyze`. -/
def booleanFlagAnalyze (opts : BfOptions) (tree : List PyStmt)
    (source filePath : String) : RuleResult :=
  let acc := bfStmts opts source filePath none tree
  { rule_name := "boolean_flag"
    violations := acc.violations
    summary :=
      [("total_boolean_flags", .int acc.violations.length),
       ("constructor_flags", .int acc.constructor_flag_count),
       ("method_flags", .int acc.method_flag_count),
       ("function_flags", .int acc.function_flag_count)]
    metadata := [("flag_patterns", .dicts acc.flag_patterns)] }

/-! ## Type code rule (`rules/type_code.py`) -/

/-- `TypeCodeRule.__init__` option knobs with source defaults. -/
structure TcOptions where
  min_branches : Nat := 2
  check_constants : Bool := true
  check_enums : Bool := true

/-- `TypeCodeRule.TYPE_CODE_ATTRIBUTES`. -/
def TYPE_CODE_ATTRIBUTES : List String :=
  ["type", "kind", "category", "status", "state", "mode", "variant",
   "style", "format", "action", "operation"]

/-- Python `str.isupper()`: at least one cased character and no lowercase
one (ASCII letters model the cased characters). -/
def pyIsUpper (s : String) : Bool :=
  s.data.any (fun c => c.isAlpha) && s.data.all (fun c => !c.isLower)

/-- `_get_full_attribute` / `_get_attribute_name` (textually identical in
`type_code.py` and `polymorphism.py`): dotted text of an attribute chain,
walking `.value` while it is an `Attribute` and prefixing a final `Name`. -/
def getFullAttribute : PyExpr → String → String
  | .attributeE v a _ _, attr => getFullAttribute v a ++ "." ++ attr
  | .nameE id, attr => id ++ "." ++ attr
  | _, attr => attr

/-- `_get_left_name`. -/
def getLeftName : PyExpr → String
  | .nameE id => id
  | .attributeE v a _ _ => getFullAttribute v a
  | _ => "<expression>"

/-- `repr()` of the constant payloads the rules compare against. -/
def pyReprConst : PyConst → String
  | .noneC => "None"
  | .boolC true => "True"
  | .boolC false => "False"
  | .intC n => toString n
  | .strC s => "\x27" ++ s ++ "\x27"

/-- `_get_comparison_value`: text of the first comparator. -/
def getComparisonValue (comparators : List PyExpr) : String :=
  match comparators with
  | [] => "<value>"
  | comp :: _ =>
      match comp with
      | .nameE id => id
      | .attributeE v a _ _ => getFullAttribute v a
      | .constantE c => pyReprConst c
      | _ => "<value>"

/-- `_is_constant`: an ALL-CAPS `Name` longer than one character. -/
def isConstantName : PyExpr → Bool
  | .nameE id => pyIsUpper id && decide (id.length > 1)
  | _ => false

/-- `_is_enum_value`: `Name.ATTR` where the attribute is upper-case or
capitalised (attribute names are never empty in parsed Python, so taking
the first character is total). -/
def isEnumValue : PyExpr → Bool
  | .attributeE (.nameE _) a _ _ => pyIsUpper a || (pyFirstChar a).isUpper
  | _ => false

/-- `_get_constant_name`. -/
def getConstantName : PyExpr → String
  | .nameE id => id
  | _ => "<constant>"

/-- `_get_enum_name`. -/
def getEnumName : PyExpr → String
  | .attributeE v a _ _ => getFullAttribute v a
  | _ => "<enum>"

/-- `_classify_comparison_value` on the first comparator. -/
def classifyComparisonValue (comparators : List PyExpr) : String :=
  match comparators with
  | [] => "unknown"
  | comp :: _ =>
      match comp with
      | .nameE id => if pyIsUpper id then "constant" else "unknown"
      | .attributeE _ _ _ _ => "enum"
      | .constantE (.strC _) => "string_literal"
      | .constantE _ => "literal"
      | _ => "unknown"

/-- Which visitor counter `_analyze_compare` bumped when it produced a
branch record. -/
inductive TcTag where
  | typeAttr
  | constant
  | enumv
deriving DecidableEq, Repr

/-- The branch-info dict `_analyze_compare` returns (`is_type_code` is
`True` on every return path, kept for the later filter). -/
structure TcBranch where
  is_type_code : Bool := true
  checked_attribute : String
  compared_to : String
  pattern_type : String
  tag : TcTag
deriving DecidableEq, Repr

/-- `_analyze_compare`: a type-code attribute on the left wins, then the
first ALL-CAPS comparator (when `check_constants`), then the first
enum-shaped comparator (when `check_enums`). -/
def tcAnalyzeCompare (opts : TcOptions) (left : PyExpr)
    (comparators : List PyExpr) : Option TcBranch :=
  match left with
  | .attributeE v a _ _ =>
      if TYPE_CODE_ATTRIBUTES.contains (pyLower a) then
        some { checked_attribute := getFullAttribute v a
               compared_to := getComparisonValue comparators
               pattern_type := classifyComparisonValue comparators
               tag := .typeAttr }
      else
        tcAnalyzeCompareRest opts left comparators
  | _ => tcAnalyzeCompareRest opts left comparators
where
  /-- The constant / enum comparator scans after the attribute check. -/
  tcAnalyzeCompareRest (opts : TcOptions) (left : PyExpr)
      (comparators : List PyExpr) : Option TcBranch :=
    match (if opts.check_constants then comparators.find? isConstantName else none) with
    | some comp =>
        some { checked_attribute := getLeftName left
               compared_to := getConstantName comp
               pattern_type := "constant"
               tag := .constant }
    | none =>
        match (if opts.check_enums then comparators.find? isEnumValue else none) with
        | some comp =>
            some { checked_attribute := getLeftName left
                   compared_to := getEnumName comp
                   pattern_type := "enum"
                   tag := .enumv }
        | none => none

/-- `_analyze_condition`: a comparison directly, or the first operand of a
boolean combination. -/
def tcAnalyzeCondition (opts : TcOptions) : PyExpr → Option TcBranch
  | .compareE left comparators => tcAnalyzeCompare opts left comparators
  | .boolOpE values =>
      match values with
      | v :: _ => tcAnalyzeCondition opts v
      | [] => none
  | _ => none
termination_by structural e => e

/-- The branch-collecting loop of `_analyze_if_chain`, resumed at one
chain element: a sole `orelse` statement that is an `If` is the next
`elif`; anything else ends the walk (a non-`If` sole statement contributes
nothing, exactly as the loop breaks there). -/
def tcChainBranchesStmt (opts : TcOptions) : PyStmt → List TcBranch
  | .ifStmt test _ orelse _ _ =>
      (tcAnalyzeCondition opts test).toList ++
      (match orelse with
       | [s] => tcChainBranchesStmt opts s
       | _ => [])
  | _ => []
termination_by structural s => s

/-- The branch-collecting loop of `_analyze_if_chain` from the head `If`'s
components. -/
def tcChainBranches (opts : TcOptions) (test : PyExpr) (orelse : List PyStmt) :
    List TcBranch :=
  (tcAnalyzeCondition opts test).toList ++
  match orelse with
  | [s] => tcChainBranchesStmt opts s
  | _ => []

/-- The chain-info dict `_analyze_if_chain` returns when the chain is a
type-code pattern. -/
structure TcChainInfo where
  checked_attribute : String
  branch_count : Nat
  type_code_branches : Nat
  comparison_values : List String
  pattern_type : String
deriving DecidableEq, Repr

/-- `_analyze_if_chain` after branch collection: enough branches, enough
type-code branches, and a single distinct checked attribute. -/
def tcAnalyzeIfChain (opts : TcOptions) (test : PyExpr) (orelse : List PyStmt) :
    Option TcChainInfo :=
  let branches := tcChainBranches opts test orelse
  if branches.length < opts.min_branches then none
  else
    let tcb := branches.filter (fun b => b.is_type_code)
    if tcb.length ≥ opts.min_branches then
      match tcb.map (fun b => b.checked_attribute), tcb with
      | a :: rest, first :: _ =>
          if rest.all (fun x => x == a) then
            some { checked_attribute := a
                   branch_count := branches.length
                   type_code_branches := tcb.length
                   comparison_values := tcb.map (fun b => b.compared_to)
                   pattern_type := first.pattern_type }
          else none
      | _, _ => none
    else none

/-- `_is_type_code_subject`. -/
def isTypeCodeSubject : PyExpr → Bool
  | .attributeE _ a _ _ => TYPE_CODE_ATTRIBUTES.contains (pyLower a)
  | _ => false

/-- Output state of a `TypeCodeVisitor` run. -/
structure TcAcc where
  violations : List RuleViolation := []
  patterns : List MetaDict := []
  constant_comparison_count : Nat := 0
  enum_comparison_count : Nat := 0
  type_attr_count : Nat := 0

/-- Concatenate two visitor outputs. -/
def TcAcc.append (x y : TcAcc) : TcAcc :=
  { violations := x.violations ++ y.violations
    patterns := x.patterns ++ y.patterns
    constant_comparison_count := x.constant_comparison_count + y.constant_comparison_count
    enum_comparison_count := x.enum_comparison_count + y.enum_comparison_count
    type_attr_count := x.type_attr_count + y.type_attr_count }

/-- Counter increments from one chain walk: `_analyze_compare` bumps
exactly one counter each time it returns a branch record. -/
def tcTally (branches : List TcBranch) : TcAcc :=
  { constant_comparison_count := (branches.filter (fun b => b.tag == .constant)).length
    enum_comparison_count := (branches.filter (fun b => b.tag == .enumv)).length
    type_attr_count := (branches.filter (fun b => b.tag == .typeAttr)).length }

/-- `values[:3]` joined, with an ellipsis for longer lists. -/
def tcValuesPreview (values : List String) : String :=
  pyJoin ", " (values.take 3) ++ (if values.length > 3 then "..." else "")

/-- The function / class context leaf stored in violation metadata. -/
def optMetaLeaf : Option String → MetaLeaf
  | some s => .str s
  | none => .null

/-- `TypeCodeVisitor._add_violation`. -/
def tcMkChainViolation (src filePath : String) (currentFn currentCls : Option String)
    (line col : Nat) (info : TcChainInfo) : RuleViolation :=
  let pattern_type := info.pattern_type
  let refactoring :=
    if pattern_type == "constant" then
      "Replace Type Code with State/Strategy or Subclasses"
    else if pattern_type == "enum" then
      "Replace Type Code with State/Strategy"
    else
      "Replace Conditional with Polymorphism"
  let suggestion :=
    if pattern_type == "constant" then
      "The conditional checks \x27" ++ info.checked_attribute ++ "\x27 against constants (" ++
      tcValuesPreview info.comparison_values ++
      "). Consider replacing with polymorphism: create a class hierarchy where " ++
      "each constant becomes a subclass with its own behavior."
    else if pattern_type == "enum" then
      "The conditional checks \x27" ++ info.checked_attribute ++ "\x27 against enum values. " ++
      "Consider using the State or Strategy pattern where each enum value " ++
      "corresponds to a class that implements the varying behavior."
    else
      "The conditional on \x27" ++ info.checked_attribute ++ "\x27 with " ++
      toString info.branch_count ++
      " branches suggests a type code pattern. Consider using polymorphism."
  { rule_name := "type_code"
    message := "Type code conditional detected: \x27" ++ info.checked_attribute ++
               "\x27 checked against " ++ toString info.branch_count ++
               " different values. " ++ refactoring ++ "."
    file_path := filePath
    line := line
    column := col
    severity := "warning"
    suggestion := some suggestion
    code_snippet := some (getSourceLine src line)
    metadata :=
      [("pattern", .str "type_code_conditional"),
       ("checked_attribute", .str info.checked_attribute),
       ("branch_count", .int info.branch_count),
       ("pattern_type", .str pattern_type),
       ("comparison_values", .strList info.comparison_values),
       ("function", optMetaLeaf currentFn),
       ("class", optMetaLeaf currentCls)] }

/-- `TypeCodeVisitor._add_match_violation`. -/
def tcMkMatchViolation (src filePath : String) (currentFn currentCls : Option String)
    (line col : Nat) (subject : PyExpr) (numCases : Nat) : RuleViolation :=
  let subject_str := getLeftName subject
  { rule_name := "type_code"
    message := "Match statement on type code \x27" ++ subject_str ++ "\x27 with " ++
               toString numCases ++ " cases. Consider replacing with polymorphism."
    file_path := filePath
    line := line
    column := col
    severity := "warning"
    suggestion := some
      ("Match statements on type codes can be replaced with polymorphism. " ++
       "Each case can become a subclass or strategy that implements the behavior.")
    code_snippet := some (getSourceLine src line)
    metadata :=
      [("pattern", .str "match_type_code"),
       ("subject", .str subject_str),
       ("case_count", .int numCases),
       ("function", optMetaLeaf currentFn),
       ("class", optMetaLeaf currentCls)] }

/-- The output of `visit_If` at one `If` node, before recursion: the chain
violation (when the chain is a type-code pattern) plus the chain walk's
counter increments. -/
def tcVisitIfLocal (opts : TcOptions) (src filePath : String)
    (currentFn currentCls : Option String) (test : PyExpr)
    (orelse : List PyStmt) (line col : Nat) : TcAcc :=
  let branches := tcChainBranches opts test orelse
  let base := tcTally branches
  match tcAnalyzeIfChain opts test orelse with
  | some info =>
      { base with
        violations := [tcMkChainViolation src filePath currentFn currentCls line col info]
        patterns :=
          [[("type", .str "if_chain"), ("line", .int line),
            ("checked_attribute", .str info.checked_attribute),
            ("branch_count", .int info.branch_count),
            ("pattern_type", .str info.pattern_type)]] }
  | none => base

mutual
/-- `TypeCodeVisitor` traversal of one statement (only statement nesting
matters: the visitor defines no expression visitors). -/
def tcStmt (opts : TcOptions) (src filePath : String)
    (currentFn currentCls : Option String) : PyStmt → TcAcc
  | .functionDef n _ body _ _ _ => tcStmts opts src filePath (some n) currentCls body
  | .classDef n _ body _ _ => tcStmts opts src filePath currentFn (some n) body
  | .ifStmt test body orelse line col =>
      (tcVisitIfLocal opts src filePath currentFn currentCls test orelse line col).append
        ((tcStmts opts src filePath currentFn currentCls body).append
          (tcStmts opts src filePath currentFn currentCls orelse))
  | .whileStmt _ body orelse =>
      (tcStmts opts src filePath currentFn currentCls body).append
        (tcStmts opts src filePath currentFn currentCls orelse)
  | .matchStmt subject cases line col =>
      (if isTypeCodeSubject subject && decide (cases.length ≥ opts.min_branches) then
        { violations :=
            [tcMkMatchViolation src filePath currentFn currentCls line col subject
              cases.length]
          patterns :=
            [[("type", .str "match"), ("line", .int line),
              ("subject", .str (getLeftName subject)),
              ("case_count", .int cases.length)]] }
       else ({} : TcAcc)).append (tcStmtss opts src filePath currentFn currentCls cases)
  | _ => {}
termination_by structural s => s

/-- Traversal of a statement list. -/
def tcStmts (opts : TcOptions) (src filePath : String)
    (currentFn currentCls : Option String) : List PyStmt → TcAcc
  | [] => {}
  | s :: rest =>
      (tcStmt opts src filePath currentFn currentCls s).append
        (tcStmts opts src filePath currentFn currentCls rest)
termination_by structural l => l

/-- Traversal of match-case bodies. -/
def tcStmtss (opts : TcOptions) (src filePath : String)
    (currentFn currentCls : Option String) : List (List PyStmt) → TcAcc
  | [] => {}
  | b :: rest =>
      (tcStmts opts src filePath currentFn currentCls b).append
        (tcStmtss opts src filePath currentFn currentCls rest)
termination_by structural l => l
end

/-- `TypeCodeRule.analyze`. -/
def typeCodeAnalyze (opts : TcOptions) (tree : List PyStmt)
    (source filePath : String) : RuleResult :=
  let acc := tcStmts opts source filePath none none tree
  { rule_name := "type_code"
    violations := acc.violations
    summary :=
      [("total_type_code_conditionals", .int acc.violations.length),
       ("constant_comparisons", .int acc.constant_comparison_count),
       ("enum_comparisons", .int acc.enum_comparison_count),
       ("type_attribute_checks", .int acc.type_attr_count)]
    metadata := [("patterns", .dicts acc.patterns)] }

/-! ## Polymorphism rule (`rules/polymorphism.py`) -/

/-- `PolymorphismRule.__init__` option knobs with source defaults. -/
structure PmOptions where
  min_branches : Nat := 3
  check_isinstance : Bool := true
  check_type_attributes : Bool := true

/-- `PolymorphismVisitor.TYPE_ATTRIBUTES`. -/
def PM_TYPE_ATTRIBUTES : List String :=
  ["type", "kind", "category", "variant", "mode", "status"]

/-- The while loop of `_count_branches` resumed at one chain element: a
sole `If` in an `orelse` is an `elif` (count it and continue down its own
`orelse`); a sole non-`If` statement is a final `else` (count one and
stop). -/
def pmChainCount : PyStmt → Nat
  | .ifStmt _ _ orelse _ _ =>
      1 + (match orelse with
           | [] => 0
           | [s] => pmChainCount s
           | _ :: _ :: _ => 1)
  | _ => 1
termination_by structural s => s

/-- `_count_branches` from the head `If`'s `orelse`: the `if` itself plus
the `orelse` spine (a multi-statement `orelse` is a final `else`). -/
def pmCountBranches (orelse : List PyStmt) : Nat :=
  1 + match orelse with
      | [] => 0
      | [s] => pmChainCount s
      | _ :: _ :: _ => 1

/-- `_get_checked_variable`: the inspected variable of one condition — the
left side of a comparison, the first argument of an `isinstance(...)` call,
or (recursively) the first operand of a boolean combination. -/
def getCheckedVariable : PyExpr → Option String
  | .compareE left _ =>
      match left with
      | .attributeE v a _ _ => some (getFullAttribute v a)
      | .nameE id => some id
      | _ => none
  | .callE (.nameE "isinstance") args =>
      match args with
      | .nameE id :: _ => some id
      | _ => none
  | .boolOpE (v :: _) => getCheckedVariable v
  | _ => none
termination_by structural e => e

/-- The condition-collecting loop of `_analyze_if_pattern` resumed at one
chain element (a trailing bare `else` — any sole non-`If` statement —
contributes no condition). -/
def pmChainVarsStmt : PyStmt → List String
  | .ifStmt test _ orelse _ _ =>
      (getCheckedVariable test).toList ++
      (match orelse with
       | [s] => pmChainVarsStmt s
       | _ => [])
  | _ => []
termination_by structural s => s

/-- The checked variables along the chain, from the head `If`'s
components. -/
def pmChainVars (test : PyExpr) (orelse : List PyStmt) : List String :=
  (getCheckedVariable test).toList ++
  match orelse with
  | [s] => pmChainVarsStmt s
  | _ => []

/-- Occurrences of one value in a list (`collections.Counter` count). -/
def countOcc (xs : List String) (v : String) : Nat :=
  (xs.filter (fun x => x == v)).length

/-- First occurrences, in insertion order (the iteration order of a
`Counter`'s keys). -/
def firstOcc : List String → List String
  | [] => []
  | x :: rest =>
      let r := firstOcc rest
      x :: r.filter (fun y => y != x)

/-- The scan underlying `most_common(1)`: fold the keys in first-occurrence
order, keeping the strictly larger count. -/
def mostCommonAux (xs : List String) : List String → Option (String × Nat) →
    Option (String × Nat)
  | [], best => best
  | k :: rest, best =>
      mostCommonAux xs rest
        (match best with
         | none => some (k, countOcc xs k)
         | some (b, c) =>
             if countOcc xs k > c then some (k, countOcc xs k) else some (b, c))

/-- `Counter(xs).most_common(1)[0]`: the key with the largest count;
`most_common` sorts stably by descending count, so ties go to the earliest
first occurrence. -/
def mostCommon (xs : List String) : Option (String × Nat) :=
  mostCommonAux xs (firstOcc xs) none

/-- The pattern-info record `_analyze_if_pattern` returns (its unread
`consistency` float ratio is not modelled). -/
structure PmPatternInfo where
  ptype : String
  variable_ : String
deriving DecidableEq, Repr

/-- `_analyze_if_pattern`: no recognizable checked variable means no
pattern; all-equal variables are a `same_variable` pattern; otherwise the
most common variable must reach 70 % of the recognized conditions
(`most_common[1] >= len(checked_vars) * 0.7` on Python floats, which for
integer counts coincides with the exact comparison `10·count ≥ 7·len`:
the double `len * 0.7` always lies within `10⁻⁹` below-or-at the exact
product and never at-or-above the next integer). -/
def pmAnalyzeIfPatternVars : List String → Option PmPatternInfo
  | [] => none
  | v :: rest =>
      if rest.all (fun x => x == v) then
        some { ptype := "same_variable", variable_ := v }
      else
        match mostCommon (v :: rest) with
        | some (k, c) =>
            if 10 * c ≥ 7 * (v :: rest).length then
              some { ptype := "mostly_same_variable", variable_ := k }
            else none
        | none => none

/-- `_analyze_if_pattern` on the chain's conditions. -/
def pmAnalyzeIfPattern (test : PyExpr) (orelse : List PyStmt) :
    Option PmPatternInfo :=
  pmAnalyzeIfPatternVars (pmChainVars test orelse)

mutual
/-- `_contains_isinstance`. -/
def containsIsinstance : PyExpr → Bool
  | .callE (.nameE "isinstance") _ => true
  | .boolOpE values => containsIsinstanceAny values
  | .unaryOpE operand => containsIsinstance operand
  | _ => false
termination_by structural e => e

/-- `any(self._contains_isinstance(v) for v in node.values)`. -/
def containsIsinstanceAny : List PyExpr → Bool
  | [] => false
  | e :: rest => containsIsinstance e || containsIsinstanceAny rest
termination_by structural l => l
end

mutual
/-- `_get_type_attribute_check`: a comparison whose left side is an
attribute from the type-name set, or the first such inside a boolean
combination. -/
def getTypeAttributeCheck : PyExpr → Option String
  | .compareE (.attributeE v a _ _) _ =>
      if PM_TYPE_ATTRIBUTES.contains (pyLower a) then some (getFullAttribute v a)
      else none
  | .boolOpE values => getTypeAttributeCheckFirst values
  | _ => none
termination_by structural e => e

/-- The first operand with a type-attribute comparison. -/
def getTypeAttributeCheckFirst : List PyExpr → Option String
  | [] => none
  | e :: rest =>
      match getTypeAttributeCheck e with
      | some r => some r
      | none => getTypeAttributeCheckFirst rest
termination_by structural l => l
end

/-- Output state of a `PolymorphismVisitor` run. -/
structure PmAcc where
  violations : List RuleViolation := []
  patterns : List MetaDict := []
  isinstance_count : Nat := 0
  type_attr_count : Nat := 0
  long_chain_count : Nat := 0

/-- Concatenate two visitor outputs. -/
def PmAcc.append (x y : PmAcc) : PmAcc :=
  { violations := x.violations ++ y.violations
    patterns := x.patterns ++ y.patterns
    isinstance_count := x.isinstance_count + y.isinstance_count
    type_attr_count := x.type_attr_count + y.type_attr_count
    long_chain_count := x.long_chain_count + y.long_chain_count }

/-- `PolymorphismVisitor._add_violation` (long `if`/`elif` chain). -/
def pmMkChainViolation (src filePath : String) (currentFn currentCls : Option String)
    (line col : Nat) (branches : Nat) (variable_ : String) : RuleViolation :=
  { rule_name := "polymorphism"
    message := "Long if/elif chain with " ++ toString branches ++
               " branches checking \x27" ++ variable_ ++
               "\x27. Consider replacing with polymorphism."
    file_path := filePath
    line := line
    column := col
    severity := "warning"
    suggestion := some
      ("This if/elif chain could be replaced with polymorphism. " ++
       "Consider using Strategy pattern, State pattern, or simple " ++
       "method dispatch based on the value of \x27" ++ variable_ ++ "\x27.")
    code_snippet := some (getSourceLine src line)
    metadata :=
      [("pattern", .str "long_if_chain"),
       ("branches", .int branches),
       ("checked_variable", .str variable_),
       ("function", optMetaLeaf currentFn),
       ("class", optMetaLeaf currentCls)] }

/-- `PolymorphismVisitor._check_isinstance_pattern`'s violation. -/
def pmMkIsinstanceViolation (src filePath : String)
    (currentFn currentCls : Option String) (line col : Nat) : RuleViolation :=
  { rule_name := "polymorphism"
    message := "isinstance() check detected. This often indicates a need for polymorphism."
    file_path := filePath
    line := line
    column := col
    severity := "warning"
    suggestion := some
      ("Instead of checking types with isinstance(), consider " ++
       "using polymorphism. Define a common interface/base class " ++
       "and let each type implement its own behavior.")
    code_snippet := some (getSourceLine src line)
    metadata :=
      [("pattern", .str "isinstance_check"),
       ("function", optMetaLeaf currentFn),
       ("class", optMetaLeaf currentCls)] }

/-- `PolymorphismVisitor._check_type_attribute_pattern`'s violation.  The
suggestion names the last dotted component (`attr_name.split('.')[-1]`). -/
def pmMkTypeAttrViolation (src filePath : String)
    (currentFn currentCls : Option String) (line col : Nat)
    (attrName : String) : RuleViolation :=
  let lastPart := ((pySplitOn '.' attrName).getLast?).getD ""
  { rule_name := "polymorphism"
    message := "Checking \x27" ++ attrName ++
               "\x27 attribute suggests type-based branching. " ++
               "Consider using polymorphism instead."
    file_path := filePath
    line := line
    column := col
    severity := "warning"
    suggestion := some
      ("Instead of checking the \x27" ++ lastPart ++ "\x27 attribute, " ++
       "consider using polymorphism. Create subclasses that implement " ++
       "the behavior directly.")
    code_snippet := some (getSourceLine src line)
    metadata :=
      [("pattern", .str "type_attribute"),
       ("attribute", .str attrName),
       ("function", optMetaLeaf currentFn),
       ("class", optMetaLeaf currentCls)] }

/-- `PolymorphismVisitor._add_match_violation`. -/
def pmMkMatchViolation (src filePath : String)
    (currentFn currentCls : Option String) (line col : Nat)
    (numCases : Nat) : RuleViolation :=
  { rule_name := "polymorphism"
    message := "Match statement with " ++ toString numCases ++
               " cases. Consider if polymorphism would be more appropriate."
    file_path := filePath
    line := line
    column := col
    severity := "info"
    suggestion := some
      ("While match statements are useful, many cases might indicate " ++
       "an opportunity for polymorphism where each case becomes a class.")
    code_snippet := some (getSourceLine src line)
    metadata :=
      [("pattern", .str "match_statement"),
       ("cases", .int numCases),
       ("function", optMetaLeaf currentFn),
       ("class", optMetaLeaf currentCls)] }

/-- The output of `visit_If` at one `If` node, before recursion: the
long-chain check, then the isinstance check, then the type-attribute
check, in source order. -/
def pmVisitIfLocal (opts : PmOptions) (src filePath : String)
    (currentFn currentCls : Option String) (test : PyExpr)
    (orelse : List PyStmt) (line col : Nat) : PmAcc :=
  let branches := pmCountBranches orelse
  let chainPart : PmAcc :=
    if branches ≥ opts.min_branches then
      match pmAnalyzeIfPattern test orelse with
      | some info =>
          { violations :=
              [pmMkChainViolation src filePath currentFn currentCls line col branches
                info.variable_]
            patterns :=
              [[("type", .str "long_if_chain"), ("branches", .int branches),
                ("variable", .str info.variable_), ("line", .int line)]]
            long_chain_count := 1 }
      | none => {}
    else {}
  let isinstancePart : PmAcc :=
    if opts.check_isinstance && containsIsinstance test then
      { violations := [pmMkIsinstanceViolation src filePath currentFn currentCls line col]
        patterns := [[("type", .str "isinstance"), ("line", .int line)]]
        isinstance_count := 1 }
    else {}
  let typeAttrPart : PmAcc :=
    if opts.check_type_attributes then
      match getTypeAttributeCheck test with
      | some attrName =>
          { violations :=
              [pmMkTypeAttrViolation src filePath currentFn currentCls line col attrName]
            patterns :=
              [[("type", .str "type_attribute"), ("attribute", .str attrName),
                ("line", .int line)]]
            type_attr_count := 1 }
      | none => {}
    else {}
  (chainPart.append isinstancePart).append typeAttrPart

mutual
/-- `PolymorphismVisitor` traversal of one statement. -/
def pmStmt (opts : PmOptions) (src filePath : String)
    (currentFn currentCls : Option String) : PyStmt → PmAcc
  | .functionDef n _ body _ _ _ => pmStmts opts src filePath (some n) currentCls body
  | .classDef n _ body _ _ => pmStmts opts src filePath currentFn (some n) body
  | .ifStmt test body orelse line col =>
      (pmVisitIfLocal opts src filePath currentFn currentCls test orelse line col).append
        ((pmStmts opts src filePath currentFn currentCls body).append
          (pmStmts opts src filePath currentFn currentCls orelse))
  | .whileStmt _ body orelse =>
      (pmStmts opts src filePath currentFn currentCls body).append
        (pmStmts opts src filePath currentFn currentCls orelse)
  | .matchStmt _ cases line col =>
      (if decide (cases.length ≥ opts.min_branches) then
        { violations :=
            [pmMkMatchViolation src filePath currentFn currentCls line col cases.length]
          patterns :=
            [[("type", .str "match_statement"), ("cases", .int cases.length),
              ("line", .int line)]] }
       else ({} : PmAcc)).append (pmStmtss opts src filePath currentFn currentCls cases)
  | _ => {}
termination_by structural s => s

/-- Traversal of a statement list. -/
def pmStmts (opts : PmOptions) (src filePath : String)
    (currentFn currentCls : Option String) : List PyStmt → PmAcc
  | [] => {}
  | s :: rest =>
      (pmStmt opts src filePath currentFn currentCls s).append
        (pmStmts opts src filePath currentFn currentCls rest)
termination_by structural l => l

/-- Traversal of match-case bodies. -/
def pmStmtss (opts : PmOptions) (src filePath : String)
    (currentFn currentCls : Option String) : List (List PyStmt) → PmAcc
  | [] => {}
  | b :: rest =>
      (pmStmts opts src filePath currentFn currentCls b).append
        (pmStmtss opts src filePath currentFn currentCls rest)
termination_by structural l => l
end

/-- `PolymorphismRule.analyze`. -/
def polymorphismAnalyze (opts : PmOptions) (tree : List PyStmt)
    (source filePath : String) : RuleResult :=
  let acc := pmStmts opts source filePath none none tree
  { rule_name := "polymorphism"
    violations := acc.violations
    summary :=
      [("total_opportunities", .int acc.violations.length),
       ("isinstance_checks", .int acc.isinstance_count),
       ("type_attribute_checks", .int acc.type_attr_count),
       ("long_if_chains", .int acc.long_chain_count)]
    metadata := [("patterns", .dicts acc.patterns)] }

/-! ## Functions-to-objects rule (`rules/functions_to_objects.py`) -/

/-- `FunctionsToObjectsRule.__init__` option knobs with source defaults. -/
structure FtoOptions where
  max_params : Nat := 4
  check_dict_returns : Bool := true
  check_related_functions : Bool := true

/-- `FunctionVisitor._count_params`: `len(args.args) + len(args.kwonlyargs)`
plus one each for `vararg` / `kwarg` (positional-only parameters are not
counted by the source). -/
def ftoCountParams (args : PyArguments) : Nat :=
  args.args.length + args.kwonlyargs.length +
  (if args.vararg.isSome then 1 else 0) + (if args.kwarg.isSome then 1 else 0)

/-- Whether one returned expression matches `_returns_dict`'s test: a dict
literal or a call to the `dict` constructor. -/
def isDictReturnValue : PyExpr → Bool
  | .dictE _ _ => true
  | .callE (.nameE "dict") _ => true
  | _ => false

mutual
/-- `_returns_dict` via `ast.walk`: any `Return` anywhere in the function
subtree (nested definitions included) whose value is a dict literal or a
`dict(...)` call.  Return nodes live only in statement positions, so the
statement spine suffices. -/
def returnsDictStmt : PyStmt → Bool
  | .functionDef _ _ body _ _ _ => returnsDictStmts body
  | .classDef _ _ body _ _ => returnsDictStmts body
  | .ifStmt _ body orelse _ _ => returnsDictStmts body || returnsDictStmts orelse
  | .whileStmt _ body orelse => returnsDictStmts body || returnsDictStmts orelse
  | .matchStmt _ cases _ _ => returnsDictStmtss cases
  | .returnStmt (some v) => isDictReturnValue v
  | _ => false
termination_by structural s => s

/-- `_returns_dict` over a statement list. -/
def returnsDictStmts : List PyStmt → Bool
  | [] => false
  | s :: rest => returnsDictStmt s || returnsDictStmts rest
termination_by structural l => l

/-- `_returns_dict` over match-case bodies. -/
def returnsDictStmtss : List (List PyStmt) → Bool
  | [] => false
  | b :: rest => returnsDictStmts b || returnsDictStmtss rest
termination_by structural l => l
end

/-- One `function_info` record (`is_async` is a flag rather than the
sometimes-absent dict key of the source). -/
structure FuncInfo where
  name : String
  line : Nat
  params : Nat
  returns_dict : Bool
  is_private : Bool
  is_async : Bool
deriving DecidableEq, Repr

/-- The dict form of a `function_info` record stored in result metadata
(the async visitor adds the `is_async` key). -/
def FuncInfo.toDict (f : FuncInfo) : MetaDict :=
  [("name", .str f.name), ("line", .int f.line), ("params", .int f.params),
   ("returns_dict", .bool f.returns_dict), ("is_private", .bool f.is_private)] ++
  (if f.is_async then [("is_async", .bool true)] else [])

/-- `FunctionVisitor._add_many_params_violation`. -/
def ftoMkManyParamsViolation (src filePath : String) (fname : String)
    (line col : Nat) (numParams : Nat) : RuleViolation :=
  { rule_name := "functions_to_objects"
    message := "Function \x27" ++ fname ++ "\x27 has " ++ toString numParams ++
               " parameters. Consider converting to a class."
    file_path := filePath
    line := line
    column := col
    severity := "info"
    suggestion := some
      ("Functions with many parameters often indicate the need for an object. " ++
       "Consider creating a class where parameters become attributes, " ++
       "and the function becomes a method.")
    code_snippet := some (getSourceLine src line)
    metadata :=
      [("pattern", .str "many_parameters"),
       ("function", .str fname),
       ("param_count", .int numParams)] }

/-- `FunctionVisitor._add_dict_return_violation`. -/
def ftoMkDictReturnViolation (src filePath : String) (fname : String)
    (line col : Nat) : RuleViolation :=
  { rule_name := "functions_to_objects"
    message := "Function \x27" ++ fname ++ "\x27 returns a dictionary. " ++
               "Consider using a dataclass or named tuple instead."
    file_path := filePath
    line := line
    column := col
    severity := "info"
    suggestion := some
      ("Returning dictionaries loses type information and makes code " ++
       "harder to maintain. Consider using a dataclass, named tuple, " ++
       "or a proper class to represent the returned data.")
    code_snippet := some (getSourceLine src line)
    metadata :=
      [("pattern", .str "dict_return"),
       ("function", .str fname)] }

/-- Output state of a `FunctionVisitor` run. -/
structure FtoAcc where
  violations : List RuleViolation := []
  function_info : List FuncInfo := []
  many_params_count : Nat := 0
  dict_return_count : Nat := 0

/-- Concatenate two visitor outputs. -/
def FtoAcc.append (x y : FtoAcc) : FtoAcc :=
  { violations := x.violations ++ y.violations
    function_info := x.function_info ++ y.function_info
    many_params_count := x.many_params_count + y.many_params_count
    dict_return_count := x.dict_return_count + y.dict_return_count }

/-- The body of `visit_FunctionDef` / `visit_AsyncFunctionDef` for one
function node outside a class: record the info, flag too many parameters,
flag a dict return. -/
def ftoVisitFunction (opts : FtoOptions) (src filePath : String)
    (fname : String) (args : PyArguments) (body : List PyStmt)
    (isAsync : Bool) (line col : Nat) : FtoAcc :=
  let is_private := pyStartsWith fname "_"
  let num_params := ftoCountParams args
  let returns_dict :=
    if opts.check_dict_returns then
      returnsDictStmt (.functionDef fname args body isAsync line col)
    else false
  let info : FuncInfo :=
    { name := fname, line := line, params := num_params,
      returns_dict := returns_dict, is_private := is_private, is_async := isAsync }
  let manyPart : FtoAcc :=
    if num_params > opts.max_params && !is_private then
      { violations := [ftoMkManyParamsViolation src filePath fname line col num_params]
        many_params_count := 1 }
    else {}
  let dictPart : FtoAcc :=
    if returns_dict && !is_private then
      { violations := [ftoMkDictReturnViolation src filePath fname line col]
        dict_return_count := 1 }
    else {}
  ({ function_info := [info] } : FtoAcc).append (manyPart.append dictPart)

mutual
/-- `FunctionVisitor` traversal of one statement: inside a class every
function node is skipped (only recursed into); outside, it is analyzed and
then recursed into. -/
def ftoStmt (opts : FtoOptions) (src filePath : String) (inClass : Bool) :
    PyStmt → FtoAcc
  | .functionDef n args body isAsync line col =>
      (if inClass then {}
       else ftoVisitFunction opts src filePath n args body isAsync line col).append
        (ftoStmts opts src filePath inClass body)
  | .classDef _ _ body _ _ => ftoStmts opts src filePath true body
  | .ifStmt _ body orelse _ _ =>
      (ftoStmts opts src filePath inClass body).append
        (ftoStmts opts src filePath inClass orelse)
  | .whileStmt _ body orelse =>
      (ftoStmts opts src filePath inClass body).append
        (ftoStmts opts src filePath inClass orelse)
  | .matchStmt _ cases _ _ => ftoStmtss opts src filePath inClass cases
  | _ => {}
termination_by structural s => s

/-- Traversal of a statement list. -/
def ftoStmts (opts : FtoOptions) (src filePath : String) (inClass : Bool) :
    List PyStmt → FtoAcc
  | [] => {}
  | s :: rest =>
      (ftoStmt opts src filePath inClass s).append
        (ftoStmts opts src filePath inClass rest)
termination_by structural l => l

/-- Traversal of match-case bodies. -/
def ftoStmtss (opts : FtoOptions) (src filePath : String) (inClass : Bool) :
    List (List PyStmt) → FtoAcc
  | [] => {}
  | b :: rest =>
      (ftoStmts opts src filePath inClass b).append
        (ftoStmtss opts src filePath inClass rest)
termination_by structural l => l
end

/-- The leading-underscore-delimited group key of a function name, when the
name is not private, has at least two `_`-separated parts, and its first
part has at least three characters (`_find_function_groups`' loop body). -/
def ftoGroupKey (name : String) : Option String :=
  if pyStartsWith name "_" then none
  else
    let parts := pySplitOn '_' name
    if parts.length ≥ 2 then
      match parts with
      | pfx :: _ => if pfx.length ≥ 3 then some pfx else none
      | [] => none
    else none

/-- Append a function under its group key, inserting a fresh key at the end
(`defaultdict` insertion order). -/
def ftoAddToGroups (groups : List (String × List FuncInfo)) (k : String)
    (f : FuncInfo) : List (String × List FuncInfo) :=
  match groups with
  | [] => [(k, [f])]
  | (k', fs) :: rest =>
      if k' == k then (k', fs ++ [f]) :: rest
      else (k', fs) :: ftoAddToGroups rest k f

/-- `_find_function_groups`: group non-private functions by meaningful name
prefix, keeping groups with at least two members. -/
def ftoFindFunctionGroups (function_info : List FuncInfo) :
    List (String × List FuncInfo) :=
  (function_info.foldl
    (fun groups f =>
      match ftoGroupKey f.name with
      | some k => ftoAddToGroups groups k f
      | none => groups)
    []).filter (fun p => p.2.length ≥ 2)

/-- `func_names[:5]` joined, with an ellipsis for longer lists. -/
def ftoNamesPreview (names : List String) : String :=
  pyJoin ", " (names.take 5) ++ (if names.length > 5 then "..." else "")

/-- `str.title()` for group keys (ASCII: capitalize the first letter of
each alphabetic run). -/
def pyTitleAux : List Char → Bool → List Char
  | [], _ => []
  | c :: rest, prevAlpha =>
      (if c.isAlpha then (if prevAlpha then c.toLower else c.toUpper) else c) ::
      pyTitleAux rest c.isAlpha

/-- `str.title()`. -/
def pyTitle (s : String) : String :=
  ⟨pyTitleAux s.data false⟩

/-- `_check_related_functions`: one violation per group of at least three
same-prefix functions, located at the smallest member line. -/
def ftoRelatedViolations (function_info : List FuncInfo) (filePath : String) :
    List RuleViolation :=
  (ftoFindFunctionGroups function_info).filterMap (fun p =>
    let (pfx, functions) := p
    if functions.length ≥ 3 then
      let func_names := functions.map (fun f => f.name)
      let first_line := (functions.map (fun f => f.line)).foldl min
        ((functions.map (fun f => f.line)).headD 0)
      some
        { rule_name := "functions_to_objects"
          message := "Found " ++ toString functions.length ++
                     " related functions with prefix \x27" ++ pfx ++ "_\x27: " ++
                     ftoNamesPreview func_names ++ ". Consider grouping into a class."
          file_path := filePath
          line := first_line
          column := 0
          severity := "info"
          suggestion := some
            ("These functions appear related. Consider creating a class \x27" ++
             (⟨(pyTitle pfx).data.filter (fun c => c != '_')⟩ : String) ++
             "\x27 with these as methods.")
          metadata :=
            [("pattern", .str "related_functions"),
             ("prefix", .str pfx),
             ("functions", .strList func_names)] }
    else none)

/-- `FunctionsToObjectsRule.analyze`. -/
def functionsToObjectsAnalyze (opts : FtoOptions) (tree : List PyStmt)
    (source filePath : String) : RuleResult :=
  let acc := ftoStmts opts source filePath false tree
  let related :=
    if opts.check_related_functions then ftoRelatedViolations acc.function_info filePath
    else []
  { rule_name := "functions_to_objects"
    violations := acc.violations ++ related
    summary :=
      [("total_functions", .int acc.function_info.length),
       ("functions_with_many_params", .int acc.many_params_count),
       ("functions_returning_dicts", .int acc.dict_return_count),
       ("related_function_groups", .int (ftoFindFunctionGroups acc.function_info).length)]
    metadata :=
      [("functions", .dicts (acc.function_info.map FuncInfo.toDict)),
       ("function_groups", .groups ((ftoFindFunctionGroups acc.function_info).map
         (fun p => (p.1, p.2.map FuncInfo.toDict))))] }

/-! ## Encapsulation rule (`rules/encapsulation.py`) -/

/-- `EncapsulationRule.__init__` option knobs with source defaults
(`warn_dependency_access` is read but never consulted afterwards). -/
structure EncOptions where
  allow_self_access : Bool := true
  allow_private_access : Bool := false
  allow_dunder_access : Bool := true
  max_chain_length : Nat := 1
  warn_dependency_access : Bool := true

/-- Traversal state of an `EncapsulationVisitor`: the imported-name set
grows as import statements are visited and is consulted by later attribute
nodes; violations and the skip counter only accumulate.  The `id()`-keyed
`_call_targets` / `_class_bases` sets mark nodes the traversal is about to
descend into exactly once, so they are passed as flags on the recursive
calls instead. -/
structure EncState where
  imported : List String := []
  module_access_skipped : Nat := 0
  violations : List RuleViolation := []

/-- `_get_attribute_chain`: `["base", "attr1", ...]` when the spine bottoms
out at a `Name`, `[]` otherwise. -/
def getAttributeChain (value : PyExpr) (attr : String) : List String :=
  match value with
  | .attributeE v a _ _ =>
      match getAttributeChain v a with
      | [] => []
      | chain => chain ++ [attr]
  | .nameE id => [id, attr]
  | _ => []

/-- `all(c.isupper() or c == "_" for c in s)`. -/
def allUpperOrUnderscore (s : String) : Bool :=
  s.data.all (fun c => c.isUpper || c == '_')

/-- `EncapsulationVisitor._create_violation`: `None` for a trailing
all-caps/underscore attribute or a well-known module base; otherwise a
Law-of-Demeter message for chains longer than `max_chain_length` and a
direct-access message for the rest. -/
def encCreateViolation (opts : EncOptions) (src filePath : String)
    (line col : Nat) (base_name : String) (attr_names : List String) :
    Option RuleViolation :=
  if allUpperOrUnderscore ((attr_names.getLast?).getD "") then none
  else if ["os", "sys", "math", "typing", "collections", "functools"].contains base_name
    then none
  else
    let full_access := base_name ++ "." ++ pyJoin "." attr_names
    let isLong := attr_names.length > opts.max_chain_length
    let message :=
      if isLong then
        "Long attribute chain detected: \x27" ++ full_access ++
        "\x27. This violates the Law of Demeter. Consider using delegation."
      else
        "Direct property access: \x27" ++ full_access ++
        "\x27. Consider using a method instead (Tell Don\x27t Ask)."
    let suggestion :=
      if isLong then
        "Instead of accessing \x27" ++ full_access ++
        "\x27, consider adding a method to \x27" ++ base_name ++
        "\x27 that encapsulates this behavior."
      else
        "Instead of accessing \x27" ++ base_name ++ "." ++
        ((attr_names.head?).getD "") ++ "\x27, consider telling \x27" ++ base_name ++
        "\x27 what to do with a method call."
    some
      { rule_name := "encapsulation"
        message := message
        file_path := filePath
        line := line
        column := col
        severity := "warning"
        suggestion := some suggestion
        code_snippet := some (getSourceLine src line)
        metadata :=
          [("base_object", .str base_name),
           ("accessed_attributes", .strList attr_names),
           ("chain_length", .int attr_names.length)] }

/-- The decision part of `visit_Attribute` for a node that is neither a
call target nor on a class-base spine: which violation (if any) the node
itself contributes.  Skips, in source order: unresolvable chains,
`self`/`cls` bases, single upper-initial attributes on imported bases (the
skip counter), dunder attributes, private attributes. -/
def encAttributeDecision (opts : EncOptions) (src filePath : String)
    (imported : List String) (line col : Nat) (value : PyExpr) (attr : String) :
    Option RuleViolation × Nat :=
  match getAttributeChain value attr with
  | [] => (none, 0)
  | base_name :: attr_names =>
      if opts.allow_self_access && (base_name == "self" || base_name == "cls") then
        (none, 0)
      else if imported.contains base_name && attr_names.length == 1 &&
          (pyFirstChar ((attr_names.head?).getD "")).isUpper then
        (none, 1)
      else if opts.allow_dunder_access &&
          attr_names.any (fun a => pyStartsWith a "__" && pyEndsWith a "__") then
        (none, 0)
      else if opts.allow_private_access &&
          attr_names.any (fun a => pyStartsWith a "_") then
        (none, 0)
      else if attr_names.length > 0 then
        (encCreateViolation opts src filePath line col base_name attr_names, 0)
      else (none, 0)

/-- `visit_Import` / `visit_ImportFrom` name collection: an `import`
records the alias or the first dotted component; a `from ... import`
records the alias or the bare name (only when the statement has a module). -/
def encImportNames : PyStmt → List String
  | .importStmt names =>
      names.map (fun a =>
        match a.asname with
        | some n => n
        | none => ((pySplitOn '.' a.name).headD a.name))
  | .importFromStmt (some _) names =>
      names.map (fun a =>
        match a.asname with
        | some n => n
        | none => a.name)
  | _ => []

mutual
/-- `EncapsulationVisitor` traversal of one statement, threading the
state left-to-right in `generic_visit` field order. -/
def encStmt (opts : EncOptions) (src filePath : String) (st : EncState) :
    PyStmt → EncState
  | .functionDef _ args body _ _ _ =>
      encStmts opts src filePath (encArguments opts src filePath st args) body
  | .classDef _ bases body _ _ =>
      encStmts opts src filePath (encBaseExprs opts src filePath st bases) body
  | .ifStmt test body orelse _ _ =>
      encStmts opts src filePath
        (encStmts opts src filePath (encExpr opts src filePath false st test) body)
        orelse
  | .whileStmt test body orelse =>
      encStmts opts src filePath
        (encStmts opts src filePath (encExpr opts src filePath false st test) body)
        orelse
  | .matchStmt subject cases _ _ =>
      encStmtss opts src filePath (encExpr opts src filePath false st subject) cases
  | .returnStmt v =>
      match v with
      | some e => encExpr opts src filePath false st e
      | none => st
  | .exprStmt e => encExpr opts src filePath false st e
  | .assignStmt targets v =>
      encExpr opts src filePath false
        (encExprs opts src filePath st targets) v
  | .importStmt names =>
      { st with imported := st.imported ++ encImportNames (.importStmt names) }
  | .importFromStmt m names =>
      { st with imported := st.imported ++ encImportNames (.importFromStmt m names) }
  | .passStmt => st
termination_by structural s => s

/-- Traversal of a statement list. -/
def encStmts (opts : EncOptions) (src filePath : String) (st : EncState) :
    List PyStmt → EncState
  | [] => st
  | s :: rest => encStmts opts src filePath (encStmt opts src filePath st s) rest
termination_by structural l => l

/-- Traversal of match-case bodies. -/
def encStmtss (opts : EncOptions) (src filePath : String) (st : EncState) :
    List (List PyStmt) → EncState
  | [] => st
  | b :: rest => encStmtss opts src filePath (encStmts opts src filePath st b) rest
termination_by structural l => l

/-- Traversal of one expression.  `onBaseSpine` marks the attribute spine
of a class-base expression (the `_class_bases` id set), each member of
which bumps the skip counter instead of being checked. -/
def encExpr (opts : EncOptions) (src filePath : String)
    (onBaseSpine : Bool) (st : EncState) : PyExpr → EncState
  | .attributeE value attr line col =>
      if onBaseSpine then
        encExpr opts src filePath true
          { st with module_access_skipped := st.module_access_skipped + 1 } value
      else
        let (violation, skips) :=
          encAttributeDecision opts src filePath st.imported line col value attr
        encExpr opts src filePath false
          { st with
            module_access_skipped := st.module_access_skipped + skips
            violations := st.violations ++ violation.toList } value
  | .callE f args =>
      let stf :=
        match f with
        | .attributeE v _ _ _ => encExpr opts src filePath false st v
        | other => encExpr opts src filePath false st other
      encExprs opts src filePath stf args
  | .compareE left comparators =>
      encExprs opts src filePath
        (encExpr opts src filePath false st left) comparators
  | .boolOpE values => encExprs opts src filePath st values
  | .unaryOpE operand => encExpr opts src filePath false st operand
  | .ifExpE t b o =>
      encExpr opts src filePath false
        (encExpr opts src filePath false
          (encExpr opts src filePath false st t) b) o
  | .dictE keys values =>
      encExprs opts src filePath (encExprs opts src filePath st keys) values
  | .subscriptE v s =>
      encExpr opts src filePath false
        (encExpr opts src filePath false st v) s
  | .nameE _ => st
  | .constantE _ => st
termination_by structural e => e

/-- Traversal of an expression list (flags never survive into items). -/
def encExprs (opts : EncOptions) (src filePath : String) (st : EncState) :
    List PyExpr → EncState
  | [] => st
  | e :: rest =>
      encExprs opts src filePath (encExpr opts src filePath false st e) rest
termination_by structural l => l

/-- Traversal of class-base expressions: each base's attribute spine is
marked (`_mark_as_class_base`). -/
def encBaseExprs (opts : EncOptions) (src filePath : String) (st : EncState) :
    List PyExpr → EncState
  | [] => st
  | e :: rest =>
      encBaseExprs opts src filePath (encExpr opts src filePath true st e) rest
termination_by structural l => l

/-- Traversal of the `arguments` child of a function (annotations and
default expressions). -/
def encArguments (opts : EncOptions) (src filePath : String) (st : EncState) :
    PyArguments → EncState
  | .mk pos args vararg kwonly kwDefaults kwarg defaults =>
      encExprs opts src filePath
        (encOptArg opts src filePath
          (encOptExprs opts src filePath
            (encArgList opts src filePath
              (encOptArg opts src filePath
                (encArgList opts src filePath
                  (encArgList opts src filePath st pos) args) vararg) kwonly)
            kwDefaults) kwarg) defaults

/-- Traversal of a parameter list (annotations). -/
def encArgList (opts : EncOptions) (src filePath : String) (st : EncState) :
    List PyArg → EncState
  | [] => st
  | .mk _ t :: rest =>
      encArgList opts src filePath (encOptAnn opts src filePath st t) rest
termination_by structural l => l

/-- Traversal of an optional parameter. -/
def encOptArg (opts : EncOptions) (src filePath : String) (st : EncState) :
    Option PyArg → EncState
  | none => st
  | some (.mk _ t) => encOptAnn opts src filePath st t

/-- Traversal of an optional annotation expression. -/
def encOptAnn (opts : EncOptions) (src filePath : String) (st : EncState) :
    Option PyExpr → EncState
  | none => st
  | some e => encExpr opts src filePath false st e

/-- Traversal of a list of optional expressions. -/
def encOptExprs (opts : EncOptions) (src filePath : String) (st : EncState) :
    List (Option PyExpr) → EncState
  | [] => st
  | e :: rest =>
      encOptExprs opts src filePath (encOptAnn opts src filePath st e) rest
termination_by structural l => l
end

/-- `EncapsulationRule.analyze` (its `RuleResult` carries no metadata). -/
def encapsulationAnalyze (opts : EncOptions) (tree : List PyStmt)
    (source filePath : String) : RuleResult :=
  let st := encStmts opts source filePath {} tree
  { rule_name := "encapsulation"
    violations := st.violations
    summary :=
      [("total_violations", .int st.violations.length),
       ("files_analyzed", .int 1),
       ("module_access_skipped", .int st.module_access_skipped)]
    metadata := [] }

/-! ## Parsing gate and orchestrator (`safety.py`, `analyzer.py`) -/

/-- The CPython `ast.parse` primitive, abstracted: it either returns the
module's statement list or raises a `SyntaxError` carried as its message
string.  It is a pure function of the source text (the `filename` argument
only decorates the error message, which `parse_safely` discards). -/
abbrev AstParse := String → Except String (List PyStmt)

/-- `SafetyValidator.validate_source_code`: parse for validation only; a
syntax error makes the report unsafe and carries the error message. -/
def validateSourceCode (astParse : AstParse) (source : String)
    (file_path : String) : SafetyReport :=
  match astParse source with
  | .error e =>
      { is_safe := false, file_path := file_path,
        issues := ["Syntax error in source: " ++ e] }
  | .ok _ => { is_safe := true, file_path := file_path, issues := [] }

/-- `SafetyValidator.parse_safely`: the tree, or `None` when parsing
raises a `SyntaxError`.  Total by construction — the embedding of the only
`except` clause the source needs. -/
def parseSafely (astParse : AstParse) (source : String) (_file_path : String) :
    Option (List PyStmt) :=
  match astParse source with
  | .ok t => some t
  | .error _ => none

/-- One configured rule as the orchestrator sees it: a name and an
`analyze(tree, source, file_path)` call that may raise (modelled as
`Except` with the exception's `str(e)` text). -/
abbrev RuleFn := List PyStmt → String → String → Except String RuleResult

/-- The per-rule loop of `OOPAnalyzer.analyze_source`: successful rules
enter the results dict in iteration order, failing rules append an error
entry tagged with the rule name. -/
def runRules (rules : List (String × RuleFn)) (tree : List PyStmt)
    (source file_path : String) :
    List (String × RuleResult) × List ErrorEntry :=
  match rules with
  | [] => ([], [])
  | (rule_name, rule) :: rest =>
      let (results, errors) := runRules rest tree source file_path
      match rule tree source file_path with
      | .ok result => ((rule_name, result) :: results, errors)
      | .error e =>
          (results, { file := some file_path, rule := some rule_name, error := e } :: errors)

/-- `OOPAnalyzer.analyze_source`: the safety gate, the parse, then every
enabled rule with per-rule exception isolation. -/
def analyzeSource (astParse : AstParse) (rules : List (String × RuleFn))
    (configDict : Json) (source : String) (file_path : String) : AnalysisReport :=
  let safety_report := validateSourceCode astParse source file_path
  if !safety_report.is_safe then
    { files_analyzed := []
      results := []
      config := configDict
      errors := [{ file := some file_path, error := "Failed to parse source",
                   details := some safety_report.issues }] }
  else
    match parseSafely astParse source file_path with
    | none =>
        { files_analyzed := []
          results := []
          config := configDict
          errors := [{ file := some file_path, error := "Failed to parse source" }] }
    | some tree =>
        let (results, errors) := runRules rules tree source file_path
        { files_analyzed := [file_path]
          results := results
          config := configDict
          errors := errors }

/-! ## Specification-side helpers and concrete scenario inputs -/

/-- A function definition occurrence outside any class body, as the
functions-to-objects claim quantifies over them. -/
structure FreeFunc where
  name : String
  args : PyArguments
  line : Nat
  col : Nat

mutual
/-- All function definitions not lexically inside a class body, in
traversal order (the functions `FunctionVisitor` analyzes rather than
skips). -/
def freeFuncsStmt (inClass : Bool) : PyStmt → List FreeFunc
  | .functionDef n args body _ line col =>
      (if inClass then [] else [⟨n, args, line, col⟩]) ++ freeFuncsStmts inClass body
  | .classDef _ _ body _ _ => freeFuncsStmts true body
  | .ifStmt _ body orelse _ _ => freeFuncsStmts inClass body ++ freeFuncsStmts inClass orelse
  | .whileStmt _ body orelse => freeFuncsStmts inClass body ++ freeFuncsStmts inClass orelse
  | .matchStmt _ cases _ _ => freeFuncsStmtss inClass cases
  | _ => []
termination_by structural s => s

/-- Collector over a statement list. -/
def freeFuncsStmts (inClass : Bool) : List PyStmt → List FreeFunc
  | [] => []
  | s :: rest => freeFuncsStmt inClass s ++ freeFuncsStmts inClass rest
termination_by structural l => l

/-- Collector over match-case bodies. -/
def freeFuncsStmtss (inClass : Bool) : List (List PyStmt) → List FreeFunc
  | [] => []
  | b :: rest => freeFuncsStmts inClass b ++ freeFuncsStmtss inClass rest
termination_by structural l => l
end

/-- A violation carrying the `many_parameters` pattern tag. -/
def isManyParamsViolation (v : RuleViolation) : Bool :=
  lookupMeta "pattern" v.metadata == some (.str "many_parameters")

/-- A violation carrying the `long_if_chain` pattern tag. -/
def isLongChainViolation (v : RuleViolation) : Bool :=
  lookupMeta "pattern" v.metadata == some (.str "long_if_chain")

/-- `AnalyzerConfig`: the options mapping of one rule, when configured. -/
def AnalyzerConfig.ruleOptions (c : AnalyzerConfig) (n : String) :
    Option (List (String × Json)) :=
  (c.rules.find? (fun p => p.1 == n)).map (fun p => p.2.options)

/-- The `arguments` of `def process(data, verbose: bool = False)`. -/
def c4Args : PyArguments :=
  .mk [] [.mk "data" none, .mk "verbose" (some (.nameE "bool"))] none [] [] none
    [.constantE (.boolC false)]

/-- The parsed module of the boolean-flag scenario
`def process(data, verbose: bool = False):` / `    if verbose:` /
`        print(data)`. -/
def c4Tree : List PyStmt :=
  [.functionDef "process" c4Args
    [.ifStmt (.nameE "verbose")
      [.exprStmt (.callE (.nameE "print") [.nameE "data"])] [] 2 4]
    false 1 0]

/-- The source text of the boolean-flag scenario. -/
def c4Source : String :=
  "def process(data, verbose: bool = False):\n    if verbose:\n        print(data)"

/-- The parsed module of the type-code scenario: a single `if`/`elif`
chain of three branches, each comparing `self.type` against a distinct
ALL-CAPS name. -/
def c5Tree : List PyStmt :=
  [.ifStmt (.compareE (.attributeE (.nameE "self") "type" 1 3) [.nameE "EUROPEAN"])
    [.passStmt]
    [.ifStmt (.compareE (.attributeE (.nameE "self") "type" 3 5) [.nameE "AFRICAN"])
      [.passStmt]
      [.ifStmt (.compareE (.attributeE (.nameE "self") "type" 5 5) [.nameE "NORWEGIAN_BLUE"])
        [.passStmt] [] 5 0]
      3 0]
    1 0]

/-- The source text of the type-code scenario. -/
def c5Source : String :=
  "if self.type == EUROPEAN:\n    pass\nelif self.type == AFRICAN:\n    pass\nelif self.type == NORWEGIAN_BLUE:\n    pass"

/-- The test of the polymorphism counterexample chain `if x == 1`. -/
def c6Test : PyExpr := .compareE (.nameE "x") [.constantE (.intC 1)]

/-- The `orelse` of the polymorphism counterexample chain:
`elif x == 2: pass` / `else: pass` — a three-branch chain whose trailing
bare `else` carries no condition. -/
def c6Orelse : List PyStmt :=
  [.ifStmt (.compareE (.nameE "x") [.constantE (.intC 2)]) [.passStmt]
    [.passStmt] 3 0]

/-- The parsed module of the polymorphism counterexample:
`if x == 1: pass` / `elif x == 2: pass` / `else: pass`. -/
def c6Tree : List PyStmt := [.ifStmt c6Test [.passStmt] c6Orelse 1 0]

/-- The source text of the polymorphism counterexample. -/
def c6Source : String :=
  "if x == 1:\n    pass\nelif x == 2:\n    pass\nelse:\n    pass"

/-- The parsed module of the encapsulation scenario: the bare expression
statement `x.b.c`. -/
def c10Tree : List PyStmt :=
  [.exprStmt (.attributeE (.attributeE (.nameE "x") "b" 1 0) "c" 1 0)]

/-- The claim's flagging predicate on a free function: not private-named
and more counted parameters than the configured maximum. -/
def ftoFlaggedPred (opts : FtoOptions) (f : FreeFunc) : Bool :=
  !(pyStartsWith f.name "_") && decide (ftoCountParams f.args > opts.max_params)

/-- The violation the rule emits for one flagged free function. -/
def ftoMkFromFunc (src path : String) (f : FreeFunc) : RuleViolation :=
  ftoMkManyParamsViolation src path f.name f.line f.col (ftoCountParams f.args)

/-! ## Theorems for the checked claims -/

/-- C1: for every `RuleResult`, `violation_count` equals the length of its
violation list and `has_violations` holds exactly when `violation_count`
is positive; and for every `AnalysisReport`, `total_violations` is the sum
of `violation_count` over the results mapping.  These derived properties
are never independently tracked. -/
theorem C1_result_report_invariants :
    (∀ r : RuleResult,
      r.violation_count = r.violations.length ∧
      (r.has_violations = true ↔ r.violation_count > 0)) ∧
    (∀ rep : AnalysisReport,
      rep.total_violations = (rep.results.map (fun p => p.2.violation_count)).sum) := by
  refine ⟨fun r => ⟨rfl, ?_⟩, fun rep => rfl⟩
  simp [RuleResult.has_violations, RuleResult.violation_count]

/-- C3: for every input string, `parse_safely` returns the parsed tree
exactly when `ast.parse` succeeds and `None` exactly when it raises a
`SyntaxError` — the embedding is total, so no exception escapes, and the
tree is produced by parsing alone, never by evaluating the text; moreover
whenever parsing fails, `validate_source_code` reports unsafe with the
syntax-error message among its issues. -/
theorem C3_parse_gate (astParse : AstParse) (s p : String) :
    (∃ t, parseSafely astParse s p = some t ∧ astParse s = .ok t) ∨
    (parseSafely astParse s p = none ∧
     ∃ e, astParse s = .error e ∧
       (validateSourceCode astParse s p).is_safe = false ∧
       ("Syntax error in source: " ++ e) ∈ (validateSourceCode astParse s p).issues) := by
  cases h : astParse s with
  | ok t =>
      left
      refine ⟨t, ?_, rfl⟩
      simp [parseSafely, h]
  | error e =>
      right
      refine ⟨?_, e, rfl, ?_, ?_⟩ <;> simp [parseSafely, validateSourceCode, h]

/-- C4: on `def process(data, verbose: bool = False):` /
`    if verbose:` / `        print(data)`, the boolean-flag rule with
default options reports exactly one violation, naming parameter
`verbose` with `conditional_usages == 1`, and counts it as a free
function (`function_flags == 1`, `constructor_flags == 0`,
`method_flags == 0`). -/
theorem C4_boolean_flag_scenario :
    (booleanFlagAnalyze {} c4Tree c4Source "test.py").violations.length = 1 ∧
    ((booleanFlagAnalyze {} c4Tree c4Source "test.py").violations.map
      (fun v => lookupMeta "parameter" v.metadata)) = [some (.str "verbose")] ∧
    ((booleanFlagAnalyze {} c4Tree c4Source "test.py").violations.map
      (fun v => lookupMeta "conditional_usages" v.metadata)) = [some (.int 1)] ∧
    lookupMeta "function_flags" (booleanFlagAnalyze {} c4Tree c4Source "test.py").summary
      = some (.int 1) ∧
    lookupMeta "constructor_flags" (booleanFlagAnalyze {} c4Tree c4Source "test.py").summary
      = some (.int 0) ∧
    lookupMeta "method_flags" (booleanFlagAnalyze {} c4Tree c4Source "test.py").summary
      = some (.int 0) := by
  decide

/-- C5 counterexample: on the three-branch `self.type` chain the type-code
rule with default options yields two violations, not exactly one — the
visitor descends into the `elif` node and flags its two-branch subchain as
well (the default `min_branches` is 2). -/
theorem C5_counterexample :
    (typeCodeAnalyze {} c5Tree c5Source "test.py").violations.length = 2 ∧
    ¬ (typeCodeAnalyze {} c5Tree c5Source "test.py").violations.length = 1 := by
  decide

/-- C5 amended: on the three-branch `self.type` chain the type-code rule
with default options yields exactly two violations — one for the full
chain, whose metadata has `checked_attribute == "self.type"` and
`branch_count == 3`, and one for the nested two-branch `elif` subchain
(`checked_attribute == "self.type"`, `branch_count == 2`), because
`visit_If` re-analyzes each `elif` head during `generic_visit`. -/
theorem C5_type_code_scenario_amended :
    (typeCodeAnalyze {} c5Tree c5Source "test.py").violations.length = 2 ∧
    ((typeCodeAnalyze {} c5Tree c5Source "test.py").violations.map
      (fun v => lookupMeta "checked_attribute" v.metadata)) =
      [some (.str "self.type"), some (.str "self.type")] ∧
    ((typeCodeAnalyze {} c5Tree c5Source "test.py").violations.map
      (fun v => lookupMeta "branch_count" v.metadata)) =
      [some (.int 3), some (.int 2)] := by
  decide

/-- C6 counterexample: on `if x == 1: ... elif x == 2: ... else: ...` the
polymorphism rule with default options emits a long-`if`/`elif`-chain
violation although no checked target is consistent across 70 % of the
chain's three counted branches (`x` is checked in only two of them):
the source computes its consistency ratio over the conditions it can
read a target from, not over the branch count. -/
theorem C6_counterexample :
    ((polymorphismAnalyze {} c6Tree c6Source "test.py").violations.filter
      (fun v => isLongChainViolation v)).length = 1 ∧
    pmCountBranches c6Orelse = 3 ∧
    pmCountBranches c6Orelse ≥ (({} : PmOptions)).min_branches ∧
    (∀ v, 10 * countOcc (pmChainVars c6Test c6Orelse) v <
      7 * pmCountBranches c6Orelse) := by
  refine ⟨by decide, by decide, by decide, fun v => ?_⟩
  have h : countOcc (pmChainVars c6Test c6Orelse) v ≤ 2 := by
    have : (pmChainVars c6Test c6Orelse) = ["x", "x"] := by decide
    rw [this]
    have := List.length_filter_le (fun x => x == v) ["x", "x"]
    simpa [countOcc] using this
  have h3 : pmCountBranches c6Orelse = 3 := by decide
  omega

/-- C9: constructing the safety validator with `max_file_size = 0` falls
back to the 10 MiB default (`or` treats `0` as unset), no choice of
argument can produce an effective limit of zero, and under that
construction `validate_file_path` accepts any existing regular `.py` file
of at most 10 MiB. -/
theorem C9_zero_max_file_size (m : Option Int) (path : String) (info : FileInfo)
    (sz : Int)
    (hex : info.fileExists = true) (hf : info.isFile = true)
    (hsuf : info.suffix = ".py") (hsz : info.statSize = .ok sz)
    (hle : sz ≤ 10 * 1024 * 1024) :
    effectiveMaxFileSize (some 0) = 10 * 1024 * 1024 ∧
    effectiveMaxFileSize m ≠ 0 ∧
    (validateFilePath (effectiveMaxFileSize (some 0)) path info).is_safe = true := by
  refine ⟨rfl, ?_, ?_⟩
  · cases m with
    | none => simp [effectiveMaxFileSize, MAX_FILE_SIZE_BYTES]
    | some v =>
        by_cases h : v = 0 <;> simp [effectiveMaxFileSize, MAX_FILE_SIZE_BYTES, h]
  · have hmax : effectiveMaxFileSize (some 0) = (10 * 1024 * 1024 : Int) := rfl
    rw [hmax]
    simp only [validateFilePath, hex, hf, hsuf, hsz]
    norm_num
    rw [if_neg (by omega)]

/-- C9 witness: a 1234-byte regular `.py` file under a validator built
with `max_file_size = 0`. -/
theorem C9_zero_max_file_size_witness :
    effectiveMaxFileSize (some 0) = 10 * 1024 * 1024 ∧
    effectiveMaxFileSize (some 7) ≠ 0 ∧
    (validateFilePath (effectiveMaxFileSize (some 0)) "a.py"
      ⟨true, true, ".py", .ok 1234⟩).is_safe = true :=
  C9_zero_max_file_size (some 7) "a.py" ⟨true, true, ".py", .ok 1234⟩ 1234
    rfl rfl rfl rfl (by norm_num)

/-- C10: on the bare expression `x.b.c` (no imports, `x` not `self`/`cls`,
no dunder or constant exemption) the encapsulation rule with default
options emits two violations for the one expression: a Law-of-Demeter
violation for the full chain `x.b.c` (chain length 2 over the default
`max_chain_length` of 1) and a direct-property-access violation for the
inner prefix `x.b`, which the traversal visits and flags independently. -/
theorem C10_chain_double_violation :
    (encapsulationAnalyze {} c10Tree "x.b.c" "test.py").violations.length = 2 ∧
    ((encapsulationAnalyze {} c10Tree "x.b.c" "test.py").violations.map
      (fun v => lookupMeta "base_object" v.metadata)) =
      [some (.str "x"), some (.str "x")] ∧
    ((encapsulationAnalyze {} c10Tree "x.b.c" "test.py").violations.map
      (fun v => lookupMeta "accessed_attributes" v.metadata)) =
      [some (.strList ["b", "c"]), some (.strList ["b"])] ∧
    ((encapsulationAnalyze {} c10Tree "x.b.c" "test.py").violations.map
      (fun v => v.message)) =
      ["Long attribute chain detected: \x27x.b.c\x27. This violates the Law of Demeter. Consider using delegation.",
       "Direct property access: \x27x.b\x27. Consider using a method instead (Tell Don\x27t Ask)."] := by
  decide

/-- The results half of the rule loop: exactly the successful rules, in
iteration order. -/
theorem runRules_results (rules : List (String × RuleFn)) (tree : List PyStmt)
    (source file_path : String) :
    (runRules rules tree source file_path).1 =
      rules.filterMap (fun q =>
        match q.2 tree source file_path with
        | .ok r => some (q.1, r)
        | .error _ => none) := by
  induction rules with
  | nil => rfl
  | cons q rest ih =>
      simp only [runRules, List.filterMap_cons]
      cases q.2 tree source file_path <;> simp [ih]

/-- The errors half of the rule loop: exactly the failing rules, each
tagged with its rule name, in iteration order. -/
theorem runRules_errors (rules : List (String × RuleFn)) (tree : List PyStmt)
    (source file_path : String) :
    (runRules rules tree source file_path).2 =
      rules.filterMap (fun q =>
        match q.2 tree source file_path with
        | .ok _ => none
        | .error e =>
            some { file := some file_path, rule := some q.1, error := e }) := by
  induction rules with
  | nil => rfl
  | cons q rest ih =>
      simp only [runRules, List.filterMap_cons]
      cases q.2 tree source file_path <;> simp [ih]

/-- C2: when the source parses and exactly one enabled rule raises, the
orchestrator's `analyze_source` still returns a report: its errors contain
an entry whose `rule` tag is the failing rule's identifier, every other
rule's result is present under its name in the results mapping, and the
failing rule contributes no results entry. -/
theorem C2_rule_failure_isolated (astParse : AstParse)
    (rules : List (String × RuleFn)) (cfg : Json) (source file_path : String)
    (tree : List PyStmt) (failing : String)
    (hparse : astParse source = .ok tree)
    (hfail : ∀ q ∈ rules, q.1 = failing →
      ∃ e, q.2 tree source file_path = .error e)
    (hok : ∀ q ∈ rules, q.1 ≠ failing →
      ∃ r, q.2 tree source file_path = .ok r)
    (hmem : failing ∈ rules.map (fun q => q.1)) :
    (∃ entry ∈ (analyzeSource astParse rules cfg source file_path).errors,
      entry.rule = some failing) ∧
    (∀ q ∈ rules, q.1 ≠ failing →
      ∃ r, (q.1, r) ∈ (analyzeSource astParse rules cfg source file_path).results) ∧
    (∀ r, (failing, r) ∉ (analyzeSource astParse rules cfg source file_path).results) := by
  have hreport :
      (analyzeSource astParse rules cfg source file_path).results =
        (runRules rules tree source file_path).1 ∧
      (analyzeSource astParse rules cfg source file_path).errors =
        (runRules rules tree source file_path).2 := by
    simp [analyzeSource, validateSourceCode, parseSafely, hparse]
  refine ⟨?_, ?_, ?_⟩
  · rcases List.mem_map.mp hmem with ⟨q, hq, hqname⟩
    rcases hfail q hq hqname with ⟨e, he⟩
    refine ⟨{ file := some file_path, rule := some q.1, error := e }, ?_, by rw [hqname]⟩
    rw [hreport.2, runRules_errors]
    exact List.mem_filterMap.mpr ⟨q, hq, by rw [he]⟩
  · intro q hq hne
    rcases hok q hq hne with ⟨r, hr⟩
    refine ⟨r, ?_⟩
    rw [hreport.1, runRules_results]
    exact List.mem_filterMap.mpr ⟨q, hq, by rw [hr]⟩
  · intro r hr
    rw [hreport.1, runRules_results] at hr
    rcases List.mem_filterMap.mp hr with ⟨q, hq, hqe⟩
    rcases h2 : q.2 tree source file_path with e | r'
    · rw [h2] at hqe
      simp at hqe
    · rw [h2] at hqe
      simp at hqe
      rcases hfail q hq hqe.1 with ⟨e', he'⟩
      rw [h2] at he'
      exact Except.noConfusion he'

/-- C2 witness: two rules over an empty module, the second of which
raises. -/
theorem C2_rule_failure_isolated_witness :
    (∃ entry ∈ (analyzeSource (fun _ => .ok [])
        [("boolean_flag", fun _ _ _ => .ok { rule_name := "boolean_flag" }),
         ("type_code", fun _ _ _ => .error "boom")]
        (.obj []) "" "f.py").errors,
      entry.rule = some "type_code") ∧
    (∀ q ∈ [(("boolean_flag" : String),
              (fun _ _ _ => .ok { rule_name := "boolean_flag" } : RuleFn)),
            ("type_code", fun _ _ _ => .error "boom")], q.1 ≠ "type_code" →
      ∃ r, (q.1, r) ∈ (analyzeSource (fun _ => .ok [])
        [("boolean_flag", fun _ _ _ => .ok { rule_name := "boolean_flag" }),
         ("type_code", fun _ _ _ => .error "boom")]
        (.obj []) "" "f.py").results) ∧
    (∀ r, ("type_code", r) ∉ (analyzeSource (fun _ => .ok [])
        [("boolean_flag", fun _ _ _ => .ok { rule_name := "boolean_flag" }),
         ("type_code", fun _ _ _ => .error "boom")]
        (.obj []) "" "f.py").results) := by
  apply C2_rule_failure_isolated _ _ _ _ _ [] "type_code"
  · rfl
  · intro q hq hname
    simp at hq
    rcases hq with h | h <;> rw [h] at hname ⊢
    · exact absurd hname (by decide)
    · exact ⟨"boom", rfl⟩
  · intro q hq hname
    simp at hq
    rcases hq with h | h <;> rw [h] at hname ⊢
    · exact ⟨{ rule_name := "boolean_flag" }, rfl⟩
    · exact absurd rfl hname
  · simp

/-- Names already present survive `__post_init__` unchanged. -/
theorem hasRule_mono (L : List String) (rs : List (String × RuleConfig))
    (n : String) (h : hasRule rs n = true) :
    hasRule (addDefaultRules rs L) n = true := by
  induction L generalizing rs with
  | nil => exact h
  | cons m L' ih =>
      simp only [addDefaultRules]
      by_cases hm : hasRule rs m = true
      · rw [if_pos hm]; exact ih rs h
      · rw [if_neg hm]
        refine ih _ ?_
        simp only [hasRule, List.any_append] at h ⊢
        rw [h]; rfl

/-- Every available rule name is present after `__post_init__`. -/
theorem hasRule_addDefaultRules (L : List String) (rs : List (String × RuleConfig))
    (n : String) (h : n ∈ L) :
    hasRule (addDefaultRules rs L) n = true := by
  induction L generalizing rs with
  | nil => cases h
  | cons m L' ih =>
      simp only [addDefaultRules]
      rcases List.mem_cons.mp h with rfl | hmem
      · by_cases hm : hasRule rs n = true
        · rw [if_pos hm]
          exact hasRule_mono L' rs n hm
        · rw [if_neg hm]
          refine hasRule_mono L' _ n ?_
          simp [hasRule]
      · by_cases hm : hasRule rs m = true
        · rw [if_pos hm]; exact ih rs hmem
        · rw [if_neg hm]; exact ih _ hmem

/-- `__post_init__` adds nothing when every name is already present. -/
theorem addDefaultRules_eq_of_all (L : List String) (rs : List (String × RuleConfig))
    (h : ∀ n ∈ L, hasRule rs n = true) :
    addDefaultRules rs L = rs := by
  induction L with
  | nil => rfl
  | cons m L' ih =>
      simp only [addDefaultRules, if_pos (h m (List.mem_cons_self m L'))]
      exact ih (fun n hn => h n (List.mem_cons_of_mem m hn))

/-- Running `__post_init__` twice equals running it once. -/
theorem addDefaultRules_idem (rs : List (String × RuleConfig)) (L : List String) :
    addDefaultRules (addDefaultRules rs L) L = addDefaultRules rs L :=
  addDefaultRules_eq_of_all L _ (fun n hn => hasRule_addDefaultRules L rs n hn)

/-- A per-rule dict written by `to_dict` reads back as the same
`RuleConfig`. -/
theorem ruleConfigFromData_toDict (rc : RuleConfig) :
    ruleConfigFromData (ruleConfigToDict rc) = some rc := by
  cases rc
  rfl

/-- The rules mapping survives the persisted form entry by entry. -/
theorem rules_roundtrip (l : List (String × RuleConfig)) :
    (l.map (fun p => (p.1, ruleConfigToDict p.2))).filterMap
      (fun p => (ruleConfigFromData p.2).map (fun rc => (p.1, rc))) = l := by
  induction l with
  | nil => rfl
  | cons p rest ih =>
      simp [List.filterMap_cons, ruleConfigFromData_toDict, ih]

/-- A string list survives the persisted JSON array form. -/
theorem strList_roundtrip (xs : List String) :
    (xs.map Json.str).filterMap
      (fun j => match j with | .str s => some s | _ => none) = xs := by
  induction xs with
  | nil => rfl
  | cons x rest ih => simp [List.filterMap_cons, ih]

/-- Reloading any configuration's persisted form rebuilds the dataclass
from the same raw fields. -/
theorem fromFile_toDict (c : AnalyzerConfig) :
    AnalyzerConfig.fromFile c.toDict =
      mkAnalyzerConfig c.rules c.output_format c.include_patterns
        c.exclude_patterns c.max_file_size := by
  have h : AnalyzerConfig.fromFile c.toDict =
      mkAnalyzerConfig
        ((c.rules.map (fun p => (p.1, ruleConfigToDict p.2))).filterMap
          (fun p => (ruleConfigFromData p.2).map (fun rc => (p.1, rc))))
        c.output_format
        ((c.include_patterns.map Json.str).filterMap
          (fun j => match j with | .str s => some s | _ => none))
        ((c.exclude_patterns.map Json.str).filterMap
          (fun j => match j with | .str s => some s | _ => none))
        c.max_file_size := rfl
  rw [h, rules_roundtrip, strList_roundtrip, strList_roundtrip]

/-- C8: saving a configuration to its persisted JSON form and reloading it
with `from_file` yields a configuration with the same enabled-rule list
and, for every rule name, the same options mapping.  The hypothesis states
the dict invariant of the rules mapping (a Python dict, hence a JSON
object, never holds two entries for one key). -/
theorem C8_config_roundtrip (rules : List (String × RuleConfig))
    (ofmt : String) (incl excl : List String) (mfs : Int)
    (_hnodup : (rules.map (fun p => p.1)).Nodup) :
    (AnalyzerConfig.fromFile
        (mkAnalyzerConfig rules ofmt incl excl mfs).toDict).get_enabled_rules =
      (mkAnalyzerConfig rules ofmt incl excl mfs).get_enabled_rules ∧
    ∀ n, (AnalyzerConfig.fromFile
        (mkAnalyzerConfig rules ofmt incl excl mfs).toDict).ruleOptions n =
      (mkAnalyzerConfig rules ofmt incl excl mfs).ruleOptions n := by
  have h : AnalyzerConfig.fromFile (mkAnalyzerConfig rules ofmt incl excl mfs).toDict =
      mkAnalyzerConfig rules ofmt incl excl mfs := by
    rw [fromFile_toDict]
    simp only [mkAnalyzerConfig, addDefaultRules_idem]
  rw [h]
  exact ⟨rfl, fun _ => rfl⟩

/-- C8 witness: the default configuration (all nine rules enabled) with
one option set round-trips. -/
theorem C8_config_roundtrip_witness :
    (AnalyzerConfig.fromFile
        (mkAnalyzerConfig [("coupling", { enabled := false, options := [("max_imports", .num 3)] })]
          "json" ["*.py"] [] 42).toDict).get_enabled_rules =
      (mkAnalyzerConfig [("coupling", { enabled := false, options := [("max_imports", .num 3)] })]
          "json" ["*.py"] [] 42).get_enabled_rules ∧
    ∀ n, (AnalyzerConfig.fromFile
        (mkAnalyzerConfig [("coupling", { enabled := false, options := [("max_imports", .num 3)] })]
          "json" ["*.py"] [] 42).toDict).ruleOptions n =
      (mkAnalyzerConfig [("coupling", { enabled := false, options := [("max_imports", .num 3)] })]
          "json" ["*.py"] [] 42).ruleOptions n :=
  C8_config_roundtrip
    [("coupling", { enabled := false, options := [("max_imports", .num 3)] })]
    "json" ["*.py"] [] 42 (by simp)

/-- A value occurs in the deduplicated key list exactly when it occurs in
the original list. -/
theorem mem_firstOcc (v : String) (xs : List String) :
    v ∈ firstOcc xs ↔ v ∈ xs := by
  induction xs with
  | nil => simp [firstOcc]
  | cons x rest ih =>
      simp only [firstOcc, List.mem_cons]
      constructor
      · rintro (rfl | h)
        · exact Or.inl rfl
        · exact Or.inr (ih.mp (List.mem_of_mem_filter h))
      · rintro (rfl | h)
        · exact Or.inl rfl
        · by_cases hx : v = x
          · exact Or.inl hx
          · refine Or.inr (List.mem_filter.mpr ⟨ih.mpr h, ?_⟩)
            simpa using hx

/-- Invariant of the `most_common` scan: the result carries the true count
of a key of `xs` and dominates the counts of every scanned key as well as
the incoming candidate. -/
theorem mostCommonAux_spec (xs : List String) (K : List String) :
    ∀ (b : Option (String × Nat)),
    (∀ q, b = some q → q.2 = countOcc xs q.1 ∧ q.1 ∈ xs) →
    (∀ k ∈ K, k ∈ xs) →
    (mostCommonAux xs K b = b ∧ K = []) ∨
    (∃ p, mostCommonAux xs K b = some p ∧ p.2 = countOcc xs p.1 ∧ p.1 ∈ xs ∧
      (∀ k ∈ K, countOcc xs k ≤ p.2) ∧ (∀ q, b = some q → q.2 ≤ p.2)) := by
  induction K with
  | nil =>
      intro b hb _
      cases b with
      | none => exact Or.inl ⟨rfl, rfl⟩
      | some q =>
          exact Or.inr ⟨q, rfl, (hb q rfl).1, (hb q rfl).2, by simp,
            fun q' hq' => by cases hq'; exact Nat.le_refl _⟩
  | cons k K' ih =>
      intro b hb hK
      have hkxs : k ∈ xs := hK k (List.mem_cons_self k K')
      obtain ⟨q, hq, hqprops, hqk, hqb⟩ :
          ∃ q, mostCommonAux xs (k :: K') b = mostCommonAux xs K' (some q) ∧
            (q.2 = countOcc xs q.1 ∧ q.1 ∈ xs) ∧ countOcc xs k ≤ q.2 ∧
            (∀ p, b = some p → p.2 ≤ q.2) := by
        cases b with
        | none => exact ⟨(k, countOcc xs k), rfl, ⟨rfl, hkxs⟩, Nat.le_refl _, by simp⟩
        | some p =>
            rcases p with ⟨bq, bc⟩
            by_cases hgt : countOcc xs k > bc
            · refine ⟨(k, countOcc xs k), ?_, ⟨rfl, hkxs⟩, Nat.le_refl _, ?_⟩
              · simp only [mostCommonAux]
                rw [if_pos hgt]
              · intro p hp
                cases hp
                simp only
                omega
            · refine ⟨(bq, bc), ?_, hb (bq, bc) rfl, by omega, ?_⟩
              · simp only [mostCommonAux]
                rw [if_neg hgt]
              · intro p hp
                cases hp
                exact Nat.le_refl _
      rcases ih (some q) (fun q' hq' => by cases hq'; exact hqprops)
          (fun k' hk' => hK k' (List.mem_cons_of_mem k hk')) with
        ⟨heq, hK'⟩ | ⟨p, hp, hcnt, hmem, hdom, hdomb⟩
      · refine Or.inr ⟨q, ?_, hqprops.1, hqprops.2, ?_, ?_⟩
        · rw [hq, heq]
        · intro k' hk'
          rcases List.mem_cons.mp hk' with rfl | hk''
          · exact hqk
          · rw [hK'] at hk''; cases hk''
        · exact fun p hp' => hqb p hp'
      · refine Or.inr ⟨p, by rw [hq, hp], hcnt, hmem, ?_, ?_⟩
        · intro k' hk'
          rcases List.mem_cons.mp hk' with rfl | hk''
          · exact Nat.le_trans hqk (hdomb q rfl)
          · exact hdom k' hk''
        · exact fun p' hp' => Nat.le_trans (hqb p' hp') (hdomb q rfl)

/-- `most_common(1)` of a nonempty list: the winning key occurs in the
list, carries its true count, and its count dominates every value's. -/
theorem mostCommon_spec (xs : List String) (hne : xs ≠ []) :
    ∃ k c, mostCommon xs = some (k, c) ∧ k ∈ xs ∧ c = countOcc xs k ∧
      ∀ v ∈ xs, countOcc xs v ≤ c := by
  have hsub : ∀ k ∈ firstOcc xs, k ∈ xs := fun k hk => (mem_firstOcc k xs).mp hk
  rcases mostCommonAux_spec xs (firstOcc xs) none (by simp) hsub with
    ⟨_, hK⟩ | ⟨p, hp, hcnt, hmem, hdom, _⟩
  · cases xs with
    | nil => exact absurd rfl hne
    | cons x rest =>
        have : x ∈ firstOcc (x :: rest) := (mem_firstOcc x (x :: rest)).mpr (by simp)
        rw [hK] at this
        cases this
  · exact ⟨p.1, p.2, by rw [← hp]; rfl, hmem, hcnt,
      fun v hv => hdom v ((mem_firstOcc v xs).mpr hv)⟩

/-- When every element equals `v`, `v`'s count is the whole length. -/
theorem countOcc_all_eq (xs : List String) (v : String)
    (h : ∀ x ∈ xs, x = v) : countOcc xs v = xs.length := by
  simp only [countOcc]
  rw [List.filter_length_eq_length.mpr]
  intro x hx
  simp [h x hx]

/-- A count never exceeds the list's length. -/
theorem countOcc_le_length (xs : List String) (v : String) :
    countOcc xs v ≤ xs.length :=
  List.length_filter_le _ xs

/-- `_analyze_if_pattern` produces a pattern exactly when some checked
target reaches 70 % of the recognized conditions. -/
theorem pmAnalyzeIfPattern_isSome (test : PyExpr) (orelse : List PyStmt) :
    (pmAnalyzeIfPattern test orelse).isSome = true ↔
      ∃ v ∈ pmChainVars test orelse,
        10 * countOcc (pmChainVars test orelse) v ≥
          7 * (pmChainVars test orelse).length := by
  unfold pmAnalyzeIfPattern
  cases hvars : pmChainVars test orelse with
  | nil => simp [pmAnalyzeIfPatternVars]
  | cons v rest =>
      simp only [pmAnalyzeIfPatternVars]
      by_cases hall : rest.all (fun x => x == v)
      · rw [if_pos hall]
        simp only [Option.isSome_some, true_iff]
        refine ⟨v, by simp, ?_⟩
        have hcnt : countOcc (v :: rest) v = (v :: rest).length := by
          refine countOcc_all_eq _ _ ?_
          intro x hx
          rcases List.mem_cons.mp hx with rfl | hx'
          · rfl
          · simpa using List.all_eq_true.mp hall x hx'
        rw [hcnt]
        omega
      · rw [if_neg hall]
        rcases mostCommon_spec (v :: rest) (by simp) with
          ⟨k, c, hmc, hkmem, hkcnt, hdom⟩
        rw [hmc]
        show (if 10 * c ≥ 7 * (v :: rest).length then
            some (PmPatternInfo.mk "mostly_same_variable" k) else none).isSome = true ↔ _
        by_cases hge : 10 * c ≥ 7 * (v :: rest).length
        · rw [if_pos hge]
          simp only [Option.isSome_some, true_iff]
          exact ⟨k, hkmem, by rw [← hkcnt]; exact hge⟩
        · rw [if_neg hge]
          simp only [Option.isSome_none, Bool.false_eq_true, false_iff]
          rintro ⟨v', hv', hge'⟩
          have := hdom v' hv'
          omega

/-- The long-chain violation record carries the `long_if_chain` tag. -/
theorem isLongChain_mkChain (src filePath : String) (cf cc : Option String)
    (line col branches : Nat) (variable_ : String) :
    isLongChainViolation
      (pmMkChainViolation src filePath cf cc line col branches variable_) = true := rfl

/-- The isinstance violation record does not carry the long-chain tag. -/
theorem isLongChain_mkIsinstance (src filePath : String) (cf cc : Option String)
    (line col : Nat) :
    isLongChainViolation (pmMkIsinstanceViolation src filePath cf cc line col) = false := rfl

/-- The type-attribute violation record does not carry the long-chain
tag. -/
theorem isLongChain_mkTypeAttr (src filePath : String) (cf cc : Option String)
    (line col : Nat) (attrName : String) :
    isLongChainViolation
      (pmMkTypeAttrViolation src filePath cf cc line col attrName) = false := rfl

/-- C6 amended: at any `if` node, the polymorphism rule emits its long
`if`/`elif` chain violation exactly when the chain's branch count (each
`elif` counts, a trailing bare `else` counts) reaches `min_branches` and
some checked target covers at least 70 % of the conditions from which a
target could be extracted — the consistency denominator is the list of
recognized conditions, not the chain's branch count. -/
theorem C6_long_chain_criterion_amended (opts : PmOptions) (src filePath : String)
    (cf cc : Option String) (test : PyExpr) (orelse : List PyStmt)
    (line col : Nat) :
    ((pmVisitIfLocal opts src filePath cf cc test orelse line col).violations.filter
      (fun v => isLongChainViolation v)).length = 1 ↔
      (pmCountBranches orelse ≥ opts.min_branches ∧
       ∃ v ∈ pmChainVars test orelse,
         10 * countOcc (pmChainVars test orelse) v ≥
           7 * (pmChainVars test orelse).length) := by
  have hiso := pmAnalyzeIfPattern_isSome test orelse
  simp only [pmVisitIfLocal]
  by_cases hbr : pmCountBranches orelse ≥ opts.min_branches
  · rw [if_pos hbr]
    cases hpat : pmAnalyzeIfPattern test orelse with
    | some info =>
        have hsome : (pmAnalyzeIfPattern test orelse).isSome = true := by
          rw [hpat]; rfl
        simp only [PmAcc.append, List.filter_append, List.length_append,
          isLongChain_mkChain, List.filter_cons, List.filter_nil]
        constructor
        · intro _
          exact ⟨hbr, hiso.mp hsome⟩
        · intro _
          by_cases hisi : opts.check_isinstance && containsIsinstance test
          · rw [if_pos hisi]
            cases hta : getTypeAttributeCheck test with
            | some a =>
                by_cases hcta : opts.check_type_attributes
                · simp [hcta, hta, isLongChain_mkIsinstance, isLongChain_mkTypeAttr]
                · simp [hcta, hta, isLongChain_mkIsinstance]
            | none =>
                by_cases hcta : opts.check_type_attributes
                · simp [hcta, hta, isLongChain_mkIsinstance]
                · simp [hcta, isLongChain_mkIsinstance]
          · rw [if_neg hisi]
            cases hta : getTypeAttributeCheck test with
            | some a =>
                by_cases hcta : opts.check_type_attributes
                · simp [hcta, hta, isLongChain_mkTypeAttr]
                · simp [hcta, hta]
            | none =>
                by_cases hcta : opts.check_type_attributes
                · simp [hcta, hta]
                · simp [hcta]
    | none =>
        have hnone : (pmAnalyzeIfPattern test orelse).isSome = false := by
          rw [hpat]; rfl
        simp only [PmAcc.append, List.filter_append, List.length_append]
        constructor
        · intro hlen
          exact absurd hlen (by
            by_cases hisi : opts.check_isinstance && containsIsinstance test
            · rw [if_pos hisi]
              cases hta : getTypeAttributeCheck test with
              | some a =>
                  by_cases hcta : opts.check_type_attributes
                  · simp [hcta, hta, isLongChain_mkIsinstance, isLongChain_mkTypeAttr]
                  · simp [hcta, hta, isLongChain_mkIsinstance]
              | none =>
                  by_cases hcta : opts.check_type_attributes
                  · simp [hcta, hta, isLongChain_mkIsinstance]
                  · simp [hcta, isLongChain_mkIsinstance]
            · rw [if_neg hisi]
              cases hta : getTypeAttributeCheck test with
              | some a =>
                  by_cases hcta : opts.check_type_attributes
                  · simp [hcta, hta, isLongChain_mkTypeAttr]
                  · simp [hcta, hta]
              | none =>
                  by_cases hcta : opts.check_type_attributes
                  · simp [hcta, hta]
                  · simp [hcta])
        · rintro ⟨_, hex⟩
          have : (pmAnalyzeIfPattern test orelse).isSome = true := hiso.mpr hex
          rw [hnone] at this
          cases this
  · rw [if_neg hbr]
    constructor
    · intro hlen
      exact absurd hlen (by
        by_cases hisi : opts.check_isinstance && containsIsinstance test
        · rw [if_pos hisi]
          cases hta : getTypeAttributeCheck test with
          | some a =>
              by_cases hcta : opts.check_type_attributes
              · simp [PmAcc.append, hcta, hta, isLongChain_mkIsinstance,
                  isLongChain_mkTypeAttr]
              · simp [PmAcc.append, hcta, hta, isLongChain_mkIsinstance]
          | none =>
              by_cases hcta : opts.check_type_attributes
              · simp [PmAcc.append, hcta, hta, isLongChain_mkIsinstance]
              · simp [PmAcc.append, hcta, isLongChain_mkIsinstance]
        · rw [if_neg hisi]
          cases hta : getTypeAttributeCheck test with
          | some a =>
              by_cases hcta : opts.check_type_attributes
              · simp [PmAcc.append, hcta, hta, isLongChain_mkTypeAttr]
              · simp [PmAcc.append, hcta, hta]
          | none =>
              by_cases hcta : opts.check_type_attributes
              · simp [PmAcc.append, hcta, hta]
              · simp [PmAcc.append, hcta])
    · rintro ⟨hbr', _⟩
      exact absurd hbr' hbr

/-- The many-parameters violation record carries its pattern tag. -/
theorem isMany_mkMany (src path n : String) (line col k : Nat) :
    isManyParamsViolation (ftoMkManyParamsViolation src path n line col k) = true := rfl

/-- The dict-return violation record does not carry the many-parameters
tag. -/
theorem isMany_mkDict (src path n : String) (line col : Nat) :
    isManyParamsViolation (ftoMkDictReturnViolation src path n line col) = false := rfl

/-- Violations of two concatenated visitor outputs concatenate. -/
theorem FtoAcc_append_violations (x y : FtoAcc) :
    (x.append y).violations = x.violations ++ y.violations := rfl

/-- The dict-return half of a function's output contributes nothing to the
many-parameters filter. -/
theorem filter_isMany_dictPart (b : Bool) (src path n : String) (l c : Nat) :
    ((if b = true then
        ({ violations := [ftoMkDictReturnViolation src path n l c],
           dict_return_count := 1 } : FtoAcc)
      else {}).violations.filter (fun v => isManyParamsViolation v)) = [] := by
  cases b <;> simp [isMany_mkDict]

/-- One function node's own output, restricted to many-parameters
violations: present exactly when the function is flagged. -/
theorem ftoVisitFunction_filter_many (opts : FtoOptions) (src path n : String)
    (args : PyArguments) (body : List PyStmt) (isAsync : Bool) (line col : Nat) :
    ((ftoVisitFunction opts src path n args body isAsync line col).violations.filter
      (fun v => isManyParamsViolation v)) =
      if ftoFlaggedPred opts ⟨n, args, line, col⟩ = true then
        [ftoMkFromFunc src path ⟨n, args, line, col⟩]
      else [] := by
  simp only [ftoVisitFunction, FtoAcc_append_violations, List.filter_append]
  by_cases hpriv : pyStartsWith n "_"
  · by_cases hcnt : ftoCountParams args > opts.max_params <;>
      simp [ftoFlaggedPred, hpriv, hcnt, isMany_mkMany, isMany_mkDict]
  · by_cases hcnt : ftoCountParams args > opts.max_params
    · by_cases hrd : (if opts.check_dict_returns = true then
          returnsDictStmt (.functionDef n args body isAsync line col) else false) = true <;>
        simp [ftoFlaggedPred, ftoMkFromFunc, hpriv, hcnt, hrd, isMany_mkMany, isMany_mkDict]
    · by_cases hrd : (if opts.check_dict_returns = true then
          returnsDictStmt (.functionDef n args body isAsync line col) else false) = true <;>
        simp [ftoFlaggedPred, hpriv, hcnt, hrd, isMany_mkMany, isMany_mkDict]

mutual
/-- One statement's visitor output, restricted to many-parameters
violations, is exactly the flagged free functions it contains. -/
theorem ftoStmt_many (opts : FtoOptions) (src path : String) (inClass : Bool) :
    (s : PyStmt) →
    ((ftoStmt opts src path inClass s).violations.filter
      (fun v => isManyParamsViolation v)) =
      ((freeFuncsStmt inClass s).filter (fun f => ftoFlaggedPred opts f)).map
        (fun f => ftoMkFromFunc src path f)
  | .functionDef n args body isAsync line col => by
      have ihb := ftoStmts_many opts src path inClass body
      cases inClass with
      | true =>
          simp [ftoStmt, freeFuncsStmt, FtoAcc_append_violations,
            List.filter_append, ihb]
      | false =>
          simp only [ftoStmt, freeFuncsStmt, FtoAcc_append_violations,
            List.filter_append, Bool.false_eq_true, if_false, ite_false]
          rw [ftoVisitFunction_filter_many, ihb]
          by_cases hflag : ftoFlaggedPred opts ⟨n, args, line, col⟩ = true <;>
            simp [hflag]
  | .classDef n bases body line col => by
      have ihb := ftoStmts_many opts src path true body
      simp [ftoStmt, freeFuncsStmt, ihb]
  | .ifStmt test body orelse line col => by
      have ihb := ftoStmts_many opts src path inClass body
      have iho := ftoStmts_many opts src path inClass orelse
      simp [ftoStmt, freeFuncsStmt, FtoAcc_append_violations, List.filter_append,
        ihb, iho]
  | .whileStmt test body orelse => by
      have ihb := ftoStmts_many opts src path inClass body
      have iho := ftoStmts_many opts src path inClass orelse
      simp [ftoStmt, freeFuncsStmt, FtoAcc_append_violations, List.filter_append,
        ihb, iho]
  | .matchStmt subject cases line col => by
      have ihc := ftoStmtss_many opts src path inClass cases
      simp [ftoStmt, freeFuncsStmt, ihc]
  | .returnStmt v => by simp [ftoStmt, freeFuncsStmt]
  | .exprStmt e => by simp [ftoStmt, freeFuncsStmt]
  | .assignStmt targets v => by simp [ftoStmt, freeFuncsStmt]
  | .importStmt names => by simp [ftoStmt, freeFuncsStmt]
  | .importFromStmt m names => by simp [ftoStmt, freeFuncsStmt]
  | .passStmt => by simp [ftoStmt, freeFuncsStmt]
termination_by structural s => s

/-- Statement-list version of `ftoStmt_many`. -/
theorem ftoStmts_many (opts : FtoOptions) (src path : String) (inClass : Bool) :
    (l : List PyStmt) →
    ((ftoStmts opts src path inClass l).violations.filter
      (fun v => isManyParamsViolation v)) =
      ((freeFuncsStmts inClass l).filter (fun f => ftoFlaggedPred opts f)).map
        (fun f => ftoMkFromFunc src path f)
  | [] => by simp [ftoStmts, freeFuncsStmts]
  | s :: rest => by
      have ih1 := ftoStmt_many opts src path inClass s
      have ih2 := ftoStmts_many opts src path inClass rest
      simp [ftoStmts, freeFuncsStmts, FtoAcc_append_violations, List.filter_append,
        ih1, ih2]
termination_by structural l => l

/-- Match-case version of `ftoStmt_many`. -/
theorem ftoStmtss_many (opts : FtoOptions) (src path : String) (inClass : Bool) :
    (ll : List (List PyStmt)) →
    ((ftoStmtss opts src path inClass ll).violations.filter
      (fun v => isManyParamsViolation v)) =
      ((freeFuncsStmtss inClass ll).filter (fun f => ftoFlaggedPred opts f)).map
        (fun f => ftoMkFromFunc src path f)
  | [] => by simp [ftoStmtss, freeFuncsStmtss]
  | b :: rest => by
      have ih1 := ftoStmts_many opts src path inClass b
      have ih2 := ftoStmtss_many opts src path inClass rest
      simp [ftoStmtss, freeFuncsStmtss, FtoAcc_append_violations, List.filter_append,
        ih1, ih2]
termination_by structural ll => ll
end

/-- Related-function violations contribute nothing to the many-parameters
filter. -/
theorem filter_isMany_related (function_info : List FuncInfo) (path : String) :
    ((ftoRelatedViolations function_info path).filter
      (fun v => isManyParamsViolation v)) = [] := by
  rw [List.filter_eq_nil_iff]
  intro v hv
  rcases List.mem_filterMap.mp hv with ⟨p, _, hp⟩
  by_cases hlen : p.2.length ≥ 3
  · simp only [ftoRelatedViolations, if_pos hlen] at hp
    rcases Option.some.inj hp with rfl
    simp [isManyParamsViolation, lookupMeta]
  · simp only [ftoRelatedViolations, if_neg hlen] at hp
    cases hp

/-- C7: the many-parameters violations of one `functions_to_objects` run
are exactly one per function not inside a class body, not private-named,
whose counted parameters (positional + keyword-only + one for `*args` +
one for `**kwargs`) exceed the configured maximum; methods inside classes
and private-named functions are never flagged by this check. -/
theorem C7_free_function_param_flagging (opts : FtoOptions)
    (tree : List PyStmt) (src path : String) :
    ((functionsToObjectsAnalyze opts tree src path).violations.filter
      (fun v => isManyParamsViolation v)) =
      ((freeFuncsStmts false tree).filter (fun f => ftoFlaggedPred opts f)).map
        (fun f => ftoMkFromFunc src path f) := by
  simp only [functionsToObjectsAnalyze, List.filter_append]
  rw [ftoStmts_many]
  by_cases hrel : opts.check_related_functions = true <;>
    simp [hrel, filter_isMany_related]

end OopAnalyzer
